import Mathlib

/-!
Shallow embedding of the color-palette-generator library (TypeScript) in Lean 4.

JavaScript numbers are modelled by exact rationals (`ℚ`).  The few places where
IEEE special values (NaN, ±Infinity) are produced and observable — the
lightness-intensity normalisation in `calculateHueShift` — are modelled by the
small `JsNum` type.  The two transcendental primitives used by the source
(`Math.pow`, `Math.cos`) have no exact rational counterpart; they are taken as
explicit function parameters (`powF`, `cosF`), so every theorem about the code
quantifies over all possible values of those primitives and in particular
covers the actual floating-point ones.
-/

namespace ColorPalette

/-- `Math.round`: round half toward positive infinity. -/
def jsRound (q : ℚ) : ℤ := ⌊q + 1/2⌋

/-- Truncation toward zero, as used by the JS `%` operator. -/
def jsTrunc (q : ℚ) : ℤ := if 0 ≤ q then ⌊q⌋ else ⌈q⌉

/-- The JS remainder operator `%` (sign follows the dividend). -/
def jsMod (a n : ℚ) : ℚ := a - n * (jsTrunc (a / n) : ℚ)

/-- JS whitespace characters relevant to `String.prototype.trim` (the usual
ASCII ones; palette strings never contain the exotic Unicode spaces). -/
def isJsWhitespace (c : Char) : Bool :=
  c == ' ' || c == '\t' || c == '\n' || c == '\r' || c == '\x0b' || c == '\x0c'

/-- `String.prototype.trim`. -/
def jsTrim (s : String) : String :=
  ⟨(((s.data.dropWhile isJsWhitespace).reverse.dropWhile isJsWhitespace).reverse)⟩

/-! ## JsNum: rationals extended with NaN and the two infinities -/

/-- A JS double that is either an exact rational, NaN, or ±Infinity. -/
inductive JsNum where
  | num (q : ℚ)
  | nan
  | inf
  | ninf
deriving DecidableEq

namespace JsNum

/-- IEEE addition restricted to the values reachable in this code base. -/
def add : JsNum → JsNum → JsNum
  | num a, num b => num (a + b)
  | nan, _ => nan
  | _, nan => nan
  | inf, ninf => nan
  | ninf, inf => nan
  | inf, _ => inf
  | _, inf => inf
  | ninf, _ => ninf
  | _, ninf => ninf

/-- IEEE subtraction. -/
def sub : JsNum → JsNum → JsNum
  | num a, num b => num (a - b)
  | nan, _ => nan
  | _, nan => nan
  | inf, inf => nan
  | ninf, ninf => nan
  | inf, _ => inf
  | _, inf => ninf
  | ninf, _ => ninf
  | _, ninf => inf

/-- IEEE multiplication (our rationals have no negative zero, so `q = 0` plays
the role of both zeros). -/
def mul : JsNum → JsNum → JsNum
  | num a, num b => num (a * b)
  | nan, _ => nan
  | _, nan => nan
  | inf, inf => inf
  | inf, ninf => ninf
  | ninf, inf => ninf
  | ninf, ninf => inf
  | inf, num b => if b = 0 then nan else if 0 < b then inf else ninf
  | num a, inf => if a = 0 then nan else if 0 < a then inf else ninf
  | ninf, num b => if b = 0 then nan else if 0 < b then ninf else inf
  | num a, ninf => if a = 0 then nan else if 0 < a then ninf else inf

/-- IEEE division; `x / 0` is NaN for `x = 0` and ±Infinity otherwise. -/
def div : JsNum → JsNum → JsNum
  | num a, num b =>
    if b = 0 then (if a = 0 then nan else if 0 < a then inf else ninf)
    else num (a / b)
  | nan, _ => nan
  | _, nan => nan
  | inf, inf => nan
  | inf, ninf => nan
  | ninf, inf => nan
  | ninf, ninf => nan
  | inf, num b => if 0 ≤ b then inf else ninf
  | ninf, num b => if 0 ≤ b then ninf else inf
  | num _, inf => num 0
  | num _, ninf => num 0

/-- IEEE negation. -/
def neg : JsNum → JsNum
  | num a => num (-a)
  | nan => nan
  | inf => ninf
  | ninf => inf

/-- `Math.min` on two values (NaN-propagating). -/
def jsMin : JsNum → JsNum → JsNum
  | nan, _ => nan
  | _, nan => nan
  | num a, num b => num (min a b)
  | ninf, _ => ninf
  | _, ninf => ninf
  | inf, b => b
  | a, inf => a

/-- `Math.max` on two values (NaN-propagating). -/
def jsMax : JsNum → JsNum → JsNum
  | nan, _ => nan
  | _, nan => nan
  | num a, num b => num (max a b)
  | inf, _ => inf
  | _, inf => inf
  | ninf, b => b
  | a, ninf => a

end JsNum

/-- `Math.min(...list)` — `Infinity` on the empty list. -/
def jsMinList (l : List ℚ) : JsNum :=
  l.foldl (fun acc v => acc.jsMin (JsNum.num v)) JsNum.inf

/-- `Math.max(...list)` — `-Infinity` on the empty list. -/
def jsMaxList (l : List ℚ) : JsNum :=
  l.foldl (fun acc v => acc.jsMax (JsNum.num v)) JsNum.ninf

/-! ## Color data types (types.ts) -/

/-- RGB color; channels are JS numbers. -/
structure RGB where
  r : ℚ
  g : ℚ
  b : ℚ
deriving DecidableEq

/-- HSL color. -/
structure HSL where
  h : ℚ
  s : ℚ
  l : ℚ
deriving DecidableEq

/-- The closed enumeration of lightness methods. -/
inductive LightnessMethod where
  | hsl
  | perceptual
  | average
  | hybrid
deriving DecidableEq

/-- The closed enumeration of hue-shift modes. -/
inductive HueShiftMode where
  | fixed
  | natural
  | unnatural
deriving DecidableEq

/-! ## Hex formatting and parsing (colorUtils.ts) -/

/-- Lowercase hex digit for a value `0..15` (`Number.prototype.toString(16)`;
only ever applied to values below 16). -/
def toHexDigit : ℕ → Char
  | 0 => '0' | 1 => '1' | 2 => '2' | 3 => '3' | 4 => '4' | 5 => '5' | 6 => '6'
  | 7 => '7' | 8 => '8' | 9 => '9' | 10 => 'a' | 11 => 'b' | 12 => 'c'
  | 13 => 'd' | 14 => 'e' | _ => 'f'

/-- Numeric value of a hex digit (either case), `none` for non-hex characters;
this is the character class of the validation regex together with the
per-digit semantics of `parseInt(-, 16)`. -/
def hexDigitVal (c : Char) : Option ℕ :=
  if c = '0' then some 0 else if c = '1' then some 1 else if c = '2' then some 2
  else if c = '3' then some 3 else if c = '4' then some 4 else if c = '5' then some 5
  else if c = '6' then some 6 else if c = '7' then some 7 else if c = '8' then some 8
  else if c = '9' then some 9
  else if c = 'a' then some 10 else if c = 'b' then some 11 else if c = 'c' then some 12
  else if c = 'd' then some 13 else if c = 'e' then some 14 else if c = 'f' then some 15
  else if c = 'A' then some 10 else if c = 'B' then some 11 else if c = 'C' then some 12
  else if c = 'D' then some 13 else if c = 'E' then some 14 else if c = 'F' then some 15
  else none

/-- Two-digit lowercase hex rendering of a byte value
(`c.toString(16).padStart(2, "0")` for `0 ≤ c ≤ 255`). -/
def byteToHex (n : ℕ) : List Char := [toHexDigit (n / 16 % 16), toHexDigit (n % 16)]

/-- `rgbToHex`: clamp+round each channel into `[0,255]` and render
`#rrggbb` in lowercase. -/
def rgbToHex (rgb : RGB) : String :=
  let clamp : ℚ → ℕ := fun value => (max 0 (min 255 (jsRound value))).toNat
  ⟨'#' :: (byteToHex (clamp rgb.r) ++ byteToHex (clamp rgb.g) ++ byteToHex (clamp rgb.b))⟩

/-- `String.prototype.startsWith`, on the character level. -/
def jsStartsWith (s t : String) : Bool := t.data.isPrefixOf s.data

/-- The combined "length is 7, shape is `#` + 6 hex digits" test of `hexToRGB`
(the `length !== 7` guard plus the `^#[0-9a-fA-F]{6}$` regex) together with the
two `parseInt(-, 16)` reads per channel. -/
def hexParseChannels : List Char → Option (ℕ × ℕ × ℕ)
  | ['#', c1, c2, c3, c4, c5, c6] =>
    match hexDigitVal c1, hexDigitVal c2, hexDigitVal c3,
          hexDigitVal c4, hexDigitVal c5, hexDigitVal c6 with
    | some a, some b, some c, some d, some e, some f =>
      some (a * 16 + b, c * 16 + d, e * 16 + f)
    | _, _, _, _, _, _ => none
  | _ => none

/-- `hexToRGB`: trim, accept an optional leading `#`, require exactly six hex
digits, and fall back to black on any malformed input.  (The `try`/`catch` and
`isNaN` guards of the source are unreachable: `parseInt` on a string matched by
the hex regex never yields NaN and nothing in the body throws.) -/
def hexToRGB (s : String) : RGB :=
  let cleanHex := jsTrim s
  if cleanHex = "" then ⟨0, 0, 0⟩
  else
    let normalizedHex := if jsStartsWith cleanHex "#" then cleanHex else "#" ++ cleanHex
    match hexParseChannels normalizedHex.data with
    | some (r, g, b) => ⟨(r : ℚ), (g : ℚ), (b : ℚ)⟩
    | none => ⟨0, 0, 0⟩

/-- The validity test implicit in `hexToRGB`: inputs on which it performs a
real parse rather than the black fallback. -/
def isValidHexColor (s : String) : Bool :=
  let cleanHex := jsTrim s
  if cleanHex = "" then false
  else
    let normalizedHex := if jsStartsWith cleanHex "#" then cleanHex else "#" ++ cleanHex
    (hexParseChannels normalizedHex.data).isSome

/-! ## RGB ⇔ HSL (colorUtils.ts) -/

/-- `rgbToHSL` from the source: channel clamp, max/min, lightness, saturation
and the three-way hue case split (JS `switch (max)` matches the first equal
channel). -/
def rgbToHSL (rgb : RGB) : HSL :=
  let clamp : ℚ → ℚ := fun value => max 0 (min 255 value)
  let r := clamp rgb.r / 255
  let g := clamp rgb.g / 255
  let b := clamp rgb.b / 255
  let maxC := max r (max g b)
  let minC := min r (min g b)
  let l := (maxC + minC) / 2
  if maxC = minC then ⟨0, 0, l * 100⟩
  else
    let d := maxC - minC
    let s := if l > 1/2 then d / (2 - maxC - minC) else d / (maxC + minC)
    let h :=
      if maxC = r then (g - b) / d + (if g < b then 6 else 0)
      else if maxC = g then (b - r) / d + 2
      else (r - g) / d + 4
    ⟨h / 6 * 360, s * 100, l * 100⟩

/-- `hslToRGB` from the source: sanitize, chroma `c`, intermediate `x`,
offset `m`, 60°-sector case split, round each channel. -/
def hslToRGB (hsl : HSL) : RGB :=
  let h := jsMod (jsMod hsl.h 360 + 360) 360
  let s := max 0 (min 100 hsl.s) / 100
  let l := max 0 (min 100 hsl.l) / 100
  let c := (1 - |2 * l - 1|) * s
  let x := c * (1 - |jsMod (h / 60) 2 - 1|)
  let m := l - c / 2
  let rgb : ℚ × ℚ × ℚ :=
    if 0 ≤ h ∧ h < 60 then (c, x, 0)
    else if 60 ≤ h ∧ h < 120 then (x, c, 0)
    else if 120 ≤ h ∧ h < 180 then (0, c, x)
    else if 180 ≤ h ∧ h < 240 then (0, x, c)
    else if 240 ≤ h ∧ h < 300 then (x, 0, c)
    else (c, 0, x)
  ⟨(jsRound ((rgb.1 + m) * 255) : ℤ), (jsRound ((rgb.2.1 + m) * 255) : ℤ),
   (jsRound ((rgb.2.2 + m) * 255) : ℤ)⟩

/-- `hexToHSL`. -/
def hexToHSL (hex : String) : HSL := rgbToHSL (hexToRGB hex)

/-! ## Constants (constants.ts) -/

def SCALE_LEVELS : List ℤ := [50, 100, 200, 300, 400, 500, 600, 700, 800, 900, 950]

def MIN_LEVEL : ℤ := 50

def MAX_LEVEL : ℤ := 950

/-- `STANDARD_LIGHTNESS_SCALE` as a function on levels; it is only ever looked
up at members of `SCALE_LEVELS` (a JS lookup outside the record would be
`undefined`), so the 0 fallback is unreachable. -/
def STANDARD_LIGHTNESS_SCALE (level : ℤ) : ℚ :=
  if level = 50 then 96 else if level = 100 then 92 else if level = 200 then 83
  else if level = 300 then 74 else if level = 400 then 65 else if level = 500 then 56
  else if level = 600 then 47 else if level = 700 then 38 else if level = 800 then 29
  else if level = 900 then 20 else if level = 950 then 16 else 0

def MAX_LIGHTNESS : ℚ := 96

def MIN_LIGHTNESS : ℚ := 16

def MIN_ALPHA : ℚ := 1/10

def MAX_ALPHA : ℚ := 1

/-! ## Lightness measurement (lightness.ts) -/

/-- `getPerceptualLightness` (CIE L*): sRGB-linearize each channel, take the
fixed-weight luminance, and apply the piecewise L* transform.  `powF` stands
for `Math.pow`.  The `isNaN`/`isFinite` guards of the source cannot fire on
rationals. -/
def getPerceptualLightness (powF : ℚ → ℚ → ℚ) (rgb : RGB) : ℚ :=
  let toLinear : ℚ → ℚ := fun c =>
    let normalized := max 0 (min 255 c) / 255
    if normalized ≤ 4045/100000 then normalized / (1292/100)
    else powF ((normalized + 55/1000) / (1055/1000)) (24/10)
  let rLinear := toLinear rgb.r
  let gLinear := toLinear rgb.g
  let bLinear := toLinear rgb.b
  let luminance := 2126/10000 * rLinear + 7152/10000 * gLinear + 722/10000 * bLinear
  let threshold : ℚ := 216 / 24389
  let multiplier : ℚ := 24389 / 27
  if luminance > threshold then powF luminance (1/3) * 116 - 16
  else luminance * multiplier

/-- `getHSLLightness`. -/
def getHSLLightness (rgb : RGB) : ℚ := (rgbToHSL rgb).l

/-- `getAverageLightness`. -/
def getAverageLightness (rgb : RGB) : ℚ := (rgb.r + rgb.g + rgb.b) / 3 / 255 * 100

/-- `getHybridLightness`: 0.3 × perceptual + 0.7 × HSL lightness. -/
def getHybridLightness (powF : ℚ → ℚ → ℚ) (rgb : RGB) : ℚ :=
  getPerceptualLightness powF rgb * (3/10) + (rgbToHSL rgb).l * (7/10)

/-- `getLightness`: dispatch on the lightness method (default `hybrid`). -/
def getLightness (powF : ℚ → ℚ → ℚ) (color : String)
    (lightnessMethod : LightnessMethod) : ℚ :=
  let rgb := hexToRGB color
  match lightnessMethod with
  | .hsl => getHSLLightness rgb
  | .perceptual => getPerceptualLightness powF rgb
  | .average => getAverageLightness rgb
  | .hybrid => getHybridLightness powF rgb

/-! ## Lightness inversion (lightness.ts) -/

/-- `adjustToHSLLightness`: direct substitution through HSL→RGB→hex. -/
def adjustToHSLLightness (h s targetLightness : ℚ) : String :=
  rgbToHex (hslToRGB ⟨h, s, targetLightness⟩)

/-- One run of the bisection loop of `adjustToLightnessByBinarySearch`; the
`ℕ` argument is the remaining iteration budget (`MAX_ITERATIONS` at the top
call), `none` for `bestDiff` models the initial `Infinity`. -/
def binarySearchLoop (powF : ℚ → ℚ → ℚ) (lightnessMethod : LightnessMethod)
    (h s targetLightness : ℚ) :
    ℕ → ℚ → ℚ → ℚ → Option ℚ → ℚ
  | 0, _, _, bestL, _ => bestL
  | n + 1, low, high, bestL, bestDiff =>
    let mid := (low + high) / 2
    let rgb := hslToRGB ⟨h, s, mid⟩
    let currentLightness := getLightness powF (rgbToHex rgb) lightnessMethod
    let diff := |currentLightness - targetLightness|
    let better : Bool := match bestDiff with | none => true | some d => diff < d
    let bestL' := if better then mid else bestL
    let bestDiff' := if better then some diff else bestDiff
    if diff < 1/1000 then bestL'
    else if high - low < 1/1000 then bestL'
    else if currentLightness < targetLightness then
      binarySearchLoop powF lightnessMethod h s targetLightness n mid high bestL' bestDiff'
    else
      binarySearchLoop powF lightnessMethod h s targetLightness n low mid bestL' bestDiff'

/-- `adjustToLightnessByBinarySearch`: 100-iteration bisection over the HSL
lightness parameter, returning the color built from the best-recorded `l`. -/
def adjustToLightnessByBinarySearch (powF : ℚ → ℚ → ℚ) (h s targetLightness : ℚ)
    (lightnessMethod : LightnessMethod) : String :=
  let bestL := binarySearchLoop powF lightnessMethod h s targetLightness 100 0 100 50 none
  rgbToHex (hslToRGB ⟨h, s, bestL⟩)

/-- `adjustToLightness`: sanitize, then direct HSL inversion or bisection.
The hue argument is a `JsNum` because the palette pipeline feeds it the raw
result of `calculateHueShift`; `isFinite(h) ? ((h % 360) + 360) % 360 : 0`
is modelled by the match.  `s` and `targetLightness` are finite rationals, so
their `isFinite` fallbacks (0 and 50) cannot fire. -/
def adjustToLightness (powF : ℚ → ℚ → ℚ) (h : JsNum) (s targetLightness : ℚ)
    (lightnessMethod : LightnessMethod) : String :=
  let h : ℚ := match h with
    | JsNum.num q => jsMod (jsMod q 360 + 360) 360
    | _ => 0
  let s := max 0 (min 100 s)
  match lightnessMethod with
  | .hsl => adjustToHSLLightness h s targetLightness
  | _ => adjustToLightnessByBinarySearch powF h s targetLightness lightnessMethod

/-! ## Scale generation (lightness.ts) -/

/-- `getAdjustedLightness`: per-method reference lightness for a level. -/
def getAdjustedLightness (level : ℤ) (lightnessMethod : LightnessMethod) : ℚ :=
  let normalizedLevel := ((level : ℚ) - (MIN_LEVEL : ℚ)) / ((MAX_LEVEL : ℚ) - (MIN_LEVEL : ℚ))
  match lightnessMethod with
  | .hsl | .average => MAX_LIGHTNESS - normalizedLevel * (MAX_LIGHTNESS - MIN_LIGHTNESS)
  | .hybrid =>
    let perceptualLightness := STANDARD_LIGHTNESS_SCALE level
    let linearLightness := MAX_LIGHTNESS - normalizedLevel * (MAX_LIGHTNESS - MIN_LIGHTNESS)
    perceptualLightness * (3/10) + linearLightness * (7/10)
  | .perceptual => STANDARD_LIGHTNESS_SCALE level

/-- `findClosestLevel`: `SCALE_LEVELS.reduce` picking the level whose reference
lightness is nearest to the input; first-encountered wins on ties.  (The
`isFinite` fallback to 50 cannot fire on rationals.) -/
def findClosestLevel (inputLightness : ℚ) (lightnessMethod : LightnessMethod) : ℤ :=
  match SCALE_LEVELS with
  | [] => 50
  | first :: rest =>
    rest.foldl (fun closestLevel current =>
      let lightness :=
        if lightnessMethod ≠ .perceptual then getAdjustedLightness current lightnessMethod
        else STANDARD_LIGHTNESS_SCALE current
      let currentDiff := |inputLightness - lightness|
      let closestDiff := |inputLightness -
        (if lightnessMethod ≠ .perceptual then getAdjustedLightness closestLevel lightnessMethod
         else STANDARD_LIGHTNESS_SCALE closestLevel)|
      if currentDiff < closestDiff then current else closestLevel) first

/-- A `Record<number, number>` keyed by levels, as an association list in
ascending key order (the order in which `Object.entries` enumerates
integer-like keys). -/
abbrev ScaleRecord := List (ℤ × ℚ)

/-- Record lookup. -/
def scaleLookup (scale : ScaleRecord) (level : ℤ) : Option ℚ :=
  (scale.find? (fun e => e.1 == level)).map Prod.snd

/-- `calculateEvenScale`: clamp the input lightness into `[16,96]`, default an
invalid anchor to 500, spread the headroom evenly above and below the anchor
(the interior loops also write at 50-multiples that are not palette levels;
the final pass keeps exactly the `SCALE_LEVELS` keys, re-clamping each
value). -/
def calculateEvenScale (inputLightness : ℚ) (baseLevel : ℤ) : ScaleRecord :=
  let clampedInputLightness := max MIN_LIGHTNESS (min MAX_LIGHTNESS inputLightness)
  let baseLevel := if SCALE_LEVELS.contains baseLevel then baseLevel else 500
  let STEP_SIZE : ℤ := 50
  let baseIndex := (baseLevel - MIN_LEVEL) / STEP_SIZE
  let totalSteps := (MAX_LEVEL - MIN_LEVEL) / STEP_SIZE
  let upwardSteps := baseIndex
  let downwardSteps := totalSteps - baseIndex
  let availableUpward := MAX_LIGHTNESS - clampedInputLightness
  let availableDownward := clampedInputLightness - MIN_LIGHTNESS
  let upwardInterval := if upwardSteps > 0 then availableUpward / (upwardSteps : ℚ) else 0
  let downwardInterval := if downwardSteps > 0 then availableDownward / (downwardSteps : ℚ) else 0
  let evenScale : ScaleRecord :=
    (baseLevel, clampedInputLightness)
    :: (List.range' 1 upwardSteps.toNat).map (fun i =>
        (baseLevel - (i : ℤ) * STEP_SIZE,
         min (clampedInputLightness + upwardInterval * (i : ℚ)) MAX_LIGHTNESS))
    ++ (List.range' 1 downwardSteps.toNat).map (fun i =>
        (baseLevel + (i : ℤ) * STEP_SIZE,
         max (clampedInputLightness - downwardInterval * (i : ℚ)) MIN_LIGHTNESS))
  SCALE_LEVELS.filterMap (fun level =>
    (scaleLookup evenScale level).map (fun v =>
      (level, max MIN_LIGHTNESS (min MAX_LIGHTNESS v))))

/-! ## Hue shift (hueShift.ts) -/

/-- First `while` loop of `normalizeHue`: add 360 while negative. -/
def normalizeHueAdd (hue : ℚ) : ℚ :=
  if h : hue < 0 then normalizeHueAdd (hue + 360) else hue
termination_by (⌈-hue / 360⌉).toNat
decreasing_by
  have h1 : -(hue + 360) / 360 = -hue / 360 - 1 := by ring
  have h2 : ⌈-hue / 360 - (1 : ℚ)⌉ = ⌈-hue / 360⌉ - 1 := Int.ceil_sub_one _
  have h3 : (0 : ℚ) < -hue / 360 := div_pos (by linarith) (by norm_num)
  have h4 : (0 : ℤ) < ⌈-hue / 360⌉ := Int.ceil_pos.mpr h3
  rw [h1, h2]
  omega

/-- Second `while` loop of `normalizeHue`: subtract 360 while `≥ 360`. -/
def normalizeHueSub (hue : ℚ) : ℚ :=
  if h : 360 ≤ hue then normalizeHueSub (hue - 360) else hue
termination_by (⌊hue / 360⌋).toNat
decreasing_by
  have h1 : (hue - 360) / 360 = hue / 360 - 1 := by ring
  have h2 : ⌊hue / 360 - (1 : ℚ)⌋ = ⌊hue / 360⌋ - 1 := Int.floor_sub_one _
  have h3 : (1 : ℚ) ≤ hue / 360 := by
    rw [le_div_iff₀ (by norm_num : (0:ℚ) < 360)]
    linarith
  have h4 : (1 : ℤ) ≤ ⌊hue / 360⌋ := by exact_mod_cast Int.le_floor.mpr (by exact_mod_cast h3)
  rw [h1, h2]
  omega

/-- `normalizeHue` on finite values: the two `while` loops in sequence. -/
def normalizeHue (hue : ℚ) : ℚ := normalizeHueSub (normalizeHueAdd hue)

/-- `normalizeHue` lifted to `JsNum`: NaN falls through both loop conditions
unchanged.  (±Infinity would make the source loop forever; those values never
reach `normalizeHue` in this code base, and are returned unchanged here.) -/
def normalizeHueJS : JsNum → JsNum
  | JsNum.num q => JsNum.num (normalizeHue q)
  | x => x

/-- The float64 value of `Math.PI`, as an exact rational. -/
def mathPI : ℚ := 884279719003555 / 281474976710656

/-- `calculateHueIntensityByHue`: perceptual-sensitivity bump times
temperature direction; `cosF` stands for `Math.cos`. -/
def calculateHueIntensityByHue (cosF : ℚ → ℚ) (hue : ℚ) : ℚ :=
  let normalizedHue := normalizeHue hue
  let radians := normalizedHue * mathPI / 180
  let perceptualSensitivity := 3/10 + (1/2 * (1 + cosF (radians - mathPI / 3))) / 2
  let temperatureDirection := cosF radians
  perceptualSensitivity * temperatureDirection

/-- `calculateHueIntensityByLightness`: normalize the lightness difference by
the scale's actual range and clamp into `[-1, 1]`.  The division is the one
place where NaN/±Infinity arise (range 0), hence the `JsNum` result. -/
def calculateHueIntensityByLightness (lightnessDiff : ℚ)
    (adjustedLightnessScale : ScaleRecord) : JsNum :=
  let values := adjustedLightnessScale.map Prod.snd
  let minLightness := jsMinList values
  let maxLightness := jsMaxList values
  let actualRange := maxLightness.sub minLightness
  let normalizedDiff := (JsNum.num lightnessDiff).div actualRange
  (JsNum.num (-1)).jsMax (normalizedDiff.jsMin (JsNum.num 1))

/-- `calculateHueShift`. -/
def calculateHueShift (cosF : ℚ → ℚ) (baseHue baseLightness targetLightness : ℚ)
    (adjustedLightnessScale : ScaleRecord) (hueShiftMode : HueShiftMode) : JsNum :=
  let MAX_HUE_SHIFT : ℚ := 30
  if hueShiftMode = .fixed then JsNum.num baseHue
  else
    let lightnessDiff := targetLightness - baseLightness
    let hueBasedIntensity := calculateHueIntensityByHue cosF baseHue
    let lightnessBasedIntensity :=
      calculateHueIntensityByLightness lightnessDiff adjustedLightnessScale
    let hueShift :=
      ((JsNum.num hueBasedIntensity).mul lightnessBasedIntensity).mul (JsNum.num MAX_HUE_SHIFT)
    let hueShift := if hueShiftMode = .unnatural then hueShift.neg else hueShift
    let newHue := (JsNum.num baseHue).add hueShift
    normalizeHueJS newHue

/-! ## Transparent colors (transparentColor.ts) -/

/-- `getAlphaForLevel`: `MAX_ALPHA` at the origin level, linear ramps toward
`MIN_ALPHA` on both sides. -/
def getAlphaForLevel (level transparentOriginLevel : ℤ) : ℚ :=
  if level = transparentOriginLevel then MAX_ALPHA
  else
    let alphaDifference := MAX_ALPHA - MIN_ALPHA
    let STEP_SIZE : ℚ := 50
    if level < transparentOriginLevel then
      let totalSteps := ((transparentOriginLevel : ℚ) - (MIN_LEVEL : ℚ)) / STEP_SIZE
      if totalSteps = 0 then MIN_ALPHA
      else
        let currentStep := ((level : ℚ) - (MIN_LEVEL : ℚ)) / STEP_SIZE
        let stepAlpha := alphaDifference / totalSteps
        MIN_ALPHA + stepAlpha * currentStep
    else
      let totalSteps := ((MAX_LEVEL : ℚ) - (transparentOriginLevel : ℚ)) / STEP_SIZE
      if totalSteps = 0 then MIN_ALPHA
      else
        let currentStep := ((level : ℚ) - (transparentOriginLevel : ℚ)) / STEP_SIZE
        let stepAlpha := alphaDifference / totalSteps
        MAX_ALPHA - stepAlpha * currentStep

/-- `clampRGBValue`: `Math.max(0, Math.min(255, Math.round(value)))`. -/
def clampRGBValue (value : ℚ) : ℤ := max 0 (min 255 (jsRound value))

/-- `Number.prototype.toFixed(3)` for the nonnegative alphas that occur here
(round to the nearer thousandth, larger value on ties). -/
def toFixed3 (q : ℚ) : String :=
  let n := (jsRound (q * 1000)).toNat
  let whole := toString (n / 1000)
  let frac := n % 1000
  let fracStr :=
    if frac < 10 then "00" ++ toString frac
    else if frac < 100 then "0" ++ toString frac
    else toString frac
  whole ++ "." ++ fracStr

/-- Decimal rendering of an (integral) JS number used in `rgba(...)`
interpolation. -/
def qChanToString (q : ℚ) : String :=
  if q.den = 1 then toString q.num else toString q

/-- `calculateTransparentColor`: parse both colors (the `try`/`catch` and
`isNaN` fallback branches of the source are unreachable because `hexToRGB` is
total and NaN-free), short-circuit zero alpha, otherwise invert the "over"
compositing equation per channel and clamp. -/
def calculateTransparentColor (targetSolidColor backgroundColor : String)
    (fixedAlpha : ℚ) : String :=
  let target := hexToRGB targetSolidColor
  let bg := hexToRGB backgroundColor
  if fixedAlpha = 0 then
    "rgba(" ++ qChanToString bg.r ++ ", " ++ qChanToString bg.g ++ ", " ++
      qChanToString bg.b ++ ", 0.000)"
  else
    let backgroundMultiplier := 1 - fixedAlpha
    let transparentR := (target.r - bg.r * backgroundMultiplier) / fixedAlpha
    let transparentG := (target.g - bg.g * backgroundMultiplier) / fixedAlpha
    let transparentB := (target.b - bg.b * backgroundMultiplier) / fixedAlpha
    let clampedR := clampRGBValue transparentR
    let clampedG := clampRGBValue transparentG
    let clampedB := clampRGBValue transparentB
    "rgba(" ++ toString clampedR ++ ", " ++ toString clampedG ++ ", " ++
      toString clampedB ++ ", " ++ toFixed3 fixedAlpha ++ ")"

/-! ## Palette assembly (palette.ts) -/

/-- The output palette.  It is only ever read back through key lookup, so the
JS object is modelled as a latest-write-wins association list. -/
abbrev Palette := List (String × String)

/-- Key lookup (`palette[key]`): the most recent write wins. -/
def paletteGet (palette : Palette) (key : String) : Option String :=
  (palette.find? (fun e => e.1 == key)).map Prod.snd

/-- Key write (`palette[key] = value`). -/
def paletteSet (palette : Palette) (key value : String) : Palette :=
  (key, value) :: palette

/-- `ColorConfig` (types.ts); optional fields are `Option`s.  The source field
`prefix` is renamed `varPrefix` because `prefix` is a Lean keyword. -/
structure ColorConfig where
  id : String
  varPrefix : String
  color : String
  hueShiftMode : Option HueShiftMode
  lightnessMethod : Option LightnessMethod
  includeTransparent : Option Bool
  bgColorLight : Option String
  bgColorDark : Option String
  transparentOriginLevel : Option ℤ

/-- `Required<ColorConfig>` as produced by the normalization step of
`generateColorPalette`. -/
structure RequiredColorConfig where
  id : String
  varPrefix : String
  color : String
  hueShiftMode : HueShiftMode
  lightnessMethod : LightnessMethod
  includeTransparent : Bool
  bgColorLight : String
  bgColorDark : String
  transparentOriginLevel : ℤ

/-- `setTransparentPalette`: for each level that has a solid color, attach an
`rgba(...)` transparent variant keyed `--prefix-level-transparent`.  The JS
falsiness tests on strings are the `= ""` tests. -/
def setTransparentPalette (colorConfig : RequiredColorConfig) (palette : Palette) :
    Palette :=
  if colorConfig.transparentOriginLevel = 0 then palette
  else
    SCALE_LEVELS.foldl (fun palette level =>
      let transparentOriginLevel := colorConfig.transparentOriginLevel
      match paletteGet palette ("--" ++ colorConfig.varPrefix ++ "-" ++ toString level) with
      | none => palette
      | some targetSolidColor =>
        if targetSolidColor = "" then palette
        else
          let normalizedColor := jsTrim targetSolidColor
          if normalizedColor = "" ∨ normalizedColor = "undefined" then palette
          else
            let fixedAlpha := getAlphaForLevel level transparentOriginLevel
            let backgroundColor :=
              if level ≤ transparentOriginLevel then colorConfig.bgColorLight
              else colorConfig.bgColorDark
            if backgroundColor = "" then palette
            else
              let transparentColor :=
                calculateTransparentColor normalizedColor backgroundColor fixedAlpha
              paletteSet palette
                ("--" ++ colorConfig.varPrefix ++ "-" ++ toString level ++ "-transparent")
                transparentColor) palette

/-- `generateOriginalPalette`: iterate the scale entries (ascending level
order, as `Object.entries` does for integer-like keys); the anchor level gets
the normalized seed verbatim, every other level gets a freshly inverted
color.  `closestLevel` is always a key of the scale, so the `getD 0` default
for `originalLightness` never fires. -/
def generateOriginalPalette (powF : ℚ → ℚ → ℚ) (cosF : ℚ → ℚ)
    (colorConfig : RequiredColorConfig) (inputHSL : HSL) (closestLevel : ℤ)
    (adjustedLightnessScale : ScaleRecord) : Palette :=
  let originalLightness := (scaleLookup adjustedLightnessScale closestLevel).getD 0
  adjustedLightnessScale.foldl (fun palette entry =>
    let level := entry.1
    let targetLightness := entry.2
    if level = closestLevel then
      paletteSet palette ("--" ++ colorConfig.varPrefix ++ "-" ++ toString level)
        colorConfig.color
    else
      let adjustedHue := calculateHueShift cosF inputHSL.h originalLightness
        targetLightness adjustedLightnessScale colorConfig.hueShiftMode
      let generatedColor := adjustToLightness powF adjustedHue inputHSL.s
        targetLightness colorConfig.lightnessMethod
      paletteSet palette ("--" ++ colorConfig.varPrefix ++ "-" ++ toString level)
        generatedColor) []

/-- `setVariationColors`: the `-color` alias plus the four offset aliases,
clamped at the ends of the level list (a missing level would give JS index
`-1`; `findIdx?` returning `none` is mapped to `-1` accordingly). -/
def setVariationColors (colorConfig : RequiredColorConfig) (closestLevel : ℤ)
    (palette : Palette) : Palette :=
  let palette := paletteSet palette ("--" ++ colorConfig.varPrefix ++ "-color")
    ("var(--" ++ colorConfig.varPrefix ++ "-" ++ toString closestLevel ++ ")")
  let currentIndex : ℤ :=
    match SCALE_LEVELS.findIdx? (fun l => l == closestLevel) with
    | some i => (i : ℤ)
    | none => -1
  [("lighter", (-2 : ℤ)), ("light", -1), ("dark", 1), ("darker", 2)].foldl
    (fun palette variation =>
      let targetIndex := max 0 (min ((SCALE_LEVELS.length : ℤ) - 1)
        (currentIndex + variation.2))
      let targetLevel := SCALE_LEVELS.getD targetIndex.toNat 0
      paletteSet palette ("--" ++ colorConfig.varPrefix ++ "-" ++ variation.1)
        ("var(--" ++ colorConfig.varPrefix ++ "-" ++ toString targetLevel ++ ")"))
    palette

/-- `setTextColor`: pick the smallest level whose color has perceptual
lightness ≤ 70, compare with the input color, and store a CSS-variable
reference under `--prefix-text-color`.  (The running `smallestLevel` of the
source always equals the tracked `selectedLevel`, so a single `Option`
accumulator is enough; the `getD ""` for `selectedColor` never fires because a
selected level always has a palette entry.) -/
def setTextColor (powF : ℚ → ℚ → ℚ) (colorConfig : RequiredColorConfig)
    (inputColor : String) (palette : Palette) : Palette :=
  let inputRGB := hexToRGB inputColor
  let normalizedColor := rgbToHex inputRGB
  let inputPerceptualLightness := getLightness powF normalizedColor .perceptual
  let selectedLevel : Option ℤ := SCALE_LEVELS.foldl (fun selected level =>
    match paletteGet palette ("--" ++ colorConfig.varPrefix ++ "-" ++ toString level) with
    | some levelColor =>
      if levelColor = "" then selected
      else
        let perceptualLightness := getLightness powF levelColor .perceptual
        if decide (perceptualLightness ≤ 70) && (match selected with
            | none => true
            | some s => decide (level < s)) then
          some level
        else selected
    | none => selected) none
  match selectedLevel with
  | some selLevel =>
    let selectedColor :=
      (paletteGet palette ("--" ++ colorConfig.varPrefix ++ "-" ++ toString selLevel)).getD ""
    let selectedPerceptualLightness := getLightness powF selectedColor .perceptual
    if inputPerceptualLightness < selectedPerceptualLightness then
      let inputClosestLevel :=
        findClosestLevel inputPerceptualLightness colorConfig.lightnessMethod
      paletteSet palette ("--" ++ colorConfig.varPrefix ++ "-text-color")
        ("var(--" ++ colorConfig.varPrefix ++ "-" ++ toString inputClosestLevel ++ ")")
    else
      paletteSet palette ("--" ++ colorConfig.varPrefix ++ "-text-color")
        ("var(--" ++ colorConfig.varPrefix ++ "-" ++ toString selLevel ++ ")")
  | none =>
    let inputClosestLevel :=
      findClosestLevel inputPerceptualLightness colorConfig.lightnessMethod
    paletteSet palette ("--" ++ colorConfig.varPrefix ++ "-text-color")
      ("var(--" ++ colorConfig.varPrefix ++ "-" ++ toString inputClosestLevel ++ ")")

/-- `generateColorPalette` for a single config (the array overload just folds
this function over the list).  The invalid-input warning log has no effect on
the returned palette and is omitted. -/
def generateColorPalette (powF : ℚ → ℚ → ℚ) (cosF : ℚ → ℚ)
    (colorConfig : ColorConfig) : Palette :=
  let inputRGB := hexToRGB colorConfig.color
  let normalizedColor := rgbToHex inputRGB
  let inputHSL := rgbToHSL inputRGB
  let normalizedConfig : RequiredColorConfig :=
    ⟨colorConfig.id, colorConfig.varPrefix, normalizedColor,
     colorConfig.hueShiftMode.getD HueShiftMode.natural,
     colorConfig.lightnessMethod.getD LightnessMethod.hybrid,
     colorConfig.includeTransparent.getD false,
     (match colorConfig.bgColorLight with
      | some s => if s = "" then "#ffffff" else s
      | none => "#ffffff"),
     (match colorConfig.bgColorDark with
      | some s => if s = "" then "#000000" else s
      | none => "#000000"),
     (match colorConfig.transparentOriginLevel with
      | some l => if l = 0 then 500 else l
      | none => 500)⟩
  let inputLightness := getLightness powF normalizedColor normalizedConfig.lightnessMethod
  let closestLevel := findClosestLevel inputLightness normalizedConfig.lightnessMethod
  let adjustedLightnessScale := calculateEvenScale inputLightness closestLevel
  let palette := generateOriginalPalette powF cosF normalizedConfig inputHSL
    closestLevel adjustedLightnessScale
  let palette := setVariationColors normalizedConfig closestLevel palette
  let palette := setTextColor powF normalizedConfig normalizedColor palette
  if colorConfig.includeTransparent.getD false then
    setTransparentPalette normalizedConfig palette
  else palette

/-! # Verification -/

/-! ## Hex round-trip infrastructure (used by claims C3, C5, C9, C10) -/

lemma isJsWhitespace_toHexDigit (n : ℕ) : isJsWhitespace (toHexDigit n) = false :=
  match n with
  | 0 => rfl | 1 => rfl | 2 => rfl | 3 => rfl | 4 => rfl | 5 => rfl | 6 => rfl | 7 => rfl
  | 8 => rfl | 9 => rfl | 10 => rfl | 11 => rfl | 12 => rfl | 13 => rfl | 14 => rfl
  | (_ + 15) => rfl

lemma hexDigitVal_toHexDigit (n : ℕ) (h : n < 16) : hexDigitVal (toHexDigit n) = some n := by
  interval_cases n <;> rfl

lemma jsRound_intCast (r : ℤ) : jsRound (r : ℚ) = r := by
  unfold jsRound
  rw [add_comm, Int.floor_add_int]
  norm_num

lemma dropWhile_all_false {p : Char → Bool} {l : List Char}
    (h : ∀ c ∈ l, p c = false) : l.dropWhile p = l := by
  cases l with
  | nil => rfl
  | cons c t => rw [List.dropWhile_cons, h c (List.mem_cons_self _ _)]; simp

lemma jsTrim_all_nonws (l : List Char) (h : ∀ c ∈ l, isJsWhitespace c = false) :
    jsTrim ⟨l⟩ = ⟨l⟩ := by
  unfold jsTrim
  congr 1
  rw [show (String.mk l).data = l from rfl, dropWhile_all_false h,
    dropWhile_all_false (fun c hc => h c (List.mem_reverse.mp hc)), List.reverse_reverse]

lemma rgbToHex_intCast (r g b : ℤ) (hr0 : 0 ≤ r) (hr1 : r ≤ 255) (hg0 : 0 ≤ g)
    (hg1 : g ≤ 255) (hb0 : 0 ≤ b) (hb1 : b ≤ 255) :
    rgbToHex ⟨(r : ℚ), (g : ℚ), (b : ℚ)⟩ =
      ⟨'#' :: (byteToHex r.toNat ++ byteToHex g.toNat ++ byteToHex b.toNat)⟩ := by
  unfold rgbToHex
  dsimp only
  rw [jsRound_intCast, jsRound_intCast, jsRound_intCast,
    min_eq_right hr1, max_eq_right hr0, min_eq_right hg1, max_eq_right hg0,
    min_eq_right hb1, max_eq_right hb0]

lemma mem_byteToHex {c : Char} {n : ℕ} (h : c ∈ byteToHex n) :
    isJsWhitespace c = false := by
  unfold byteToHex at h
  rcases List.mem_cons.mp h with rfl | h
  · exact isJsWhitespace_toHexDigit _
  · rcases List.mem_cons.mp h with rfl | h
    · exact isJsWhitespace_toHexDigit _
    · cases h

lemma hexParseChannels_hash (c1 c2 c3 c4 c5 c6 : Char) :
    hexParseChannels ['#', c1, c2, c3, c4, c5, c6] =
      match hexDigitVal c1, hexDigitVal c2, hexDigitVal c3,
            hexDigitVal c4, hexDigitVal c5, hexDigitVal c6 with
      | some a, some b, some c, some d, some e, some f =>
        some (a * 16 + b, c * 16 + d, e * 16 + f)
      | _, _, _, _, _, _ => none := rfl

lemma hexToRGB_rgbToHex (r g b : ℤ) (hr0 : 0 ≤ r) (hr1 : r ≤ 255) (hg0 : 0 ≤ g)
    (hg1 : g ≤ 255) (hb0 : 0 ≤ b) (hb1 : b ≤ 255) :
    hexToRGB (rgbToHex ⟨(r : ℚ), (g : ℚ), (b : ℚ)⟩) = ⟨(r : ℚ), (g : ℚ), (b : ℚ)⟩ := by
  rw [rgbToHex_intCast r g b hr0 hr1 hg0 hg1 hb0 hb1]
  unfold hexToRGB
  have hchars : ∀ c ∈ '#' :: (byteToHex r.toNat ++ byteToHex g.toNat ++ byteToHex b.toNat),
      isJsWhitespace c = false := by
    intro c hc
    rcases List.mem_cons.mp hc with rfl | hc
    · rfl
    · rcases List.mem_append.mp hc with hc | hc
      · rcases List.mem_append.mp hc with hc | hc
        · exact mem_byteToHex hc
        · exact mem_byteToHex hc
      · exact mem_byteToHex hc
  rw [jsTrim_all_nonws _ hchars]
  dsimp only
  rw [if_neg (by simp [String.ext_iff]), if_pos (by simp [jsStartsWith, List.isPrefixOf])]
  rw [show ('#' :: (byteToHex r.toNat ++ byteToHex g.toNat ++ byteToHex b.toNat) : List Char) =
    ['#', toHexDigit (r.toNat / 16 % 16), toHexDigit (r.toNat % 16),
      toHexDigit (g.toNat / 16 % 16), toHexDigit (g.toNat % 16),
      toHexDigit (b.toNat / 16 % 16), toHexDigit (b.toNat % 16)] from rfl]
  rw [hexParseChannels_hash]
  have hparse : ∀ n : ℕ, n ≤ 255 →
      hexDigitVal (toHexDigit (n / 16 % 16)) = some (n / 16) ∧
      hexDigitVal (toHexDigit (n % 16)) = some (n % 16) := by
    intro n hn
    constructor
    · rw [Nat.mod_eq_of_lt (by omega : n / 16 < 16)]
      exact hexDigitVal_toHexDigit _ (by omega)
    · exact hexDigitVal_toHexDigit _ (by omega)
  have hrN : r.toNat ≤ 255 := by omega
  have hgN : g.toNat ≤ 255 := by omega
  have hbN : b.toNat ≤ 255 := by omega
  rw [(hparse r.toNat hrN).1, (hparse r.toNat hrN).2, (hparse g.toNat hgN).1,
    (hparse g.toNat hgN).2, (hparse b.toNat hbN).1, (hparse b.toNat hbN).2]
  dsimp only
  have hval : ∀ n : ℕ, n ≤ 255 → n / 16 * 16 + n % 16 = n := by omega
  rw [hval r.toNat hrN, hval g.toNat hgN, hval b.toNat hbN]
  have hrc : ((r.toNat : ℕ) : ℚ) = (r : ℚ) := by exact_mod_cast Int.toNat_of_nonneg hr0
  have hgc : ((g.toNat : ℕ) : ℚ) = (g : ℚ) := by exact_mod_cast Int.toNat_of_nonneg hg0
  have hbc : ((b.toNat : ℕ) : ℚ) = (b : ℚ) := by exact_mod_cast Int.toNat_of_nonneg hb0
  rw [hrc, hgc, hbc]


/-! ## Compositing inversion (claim C5) -/
lemma jsRound_le_of (y : ℚ) : (jsRound y : ℚ) ≤ y + 1/2 := Int.floor_le _

lemma jsRound_gt_of (y : ℚ) : y - 1/2 < (jsRound y : ℚ) := by
  have := Int.lt_floor_add_one (y + 1/2)
  unfold jsRound
  linarith

lemma jsRound_bounds255 (y : ℚ) (h0 : 0 ≤ y) (h255 : y ≤ 255) :
    0 ≤ jsRound y ∧ jsRound y ≤ 255 := by
  constructor
  · exact Int.floor_nonneg.mpr (by linarith)
  · have h1 : (jsRound y : ℚ) < 256 := by have := jsRound_le_of y; linarith
    have : jsRound y < 256 := by exact_mod_cast h1
    omega

/-- Per-channel accuracy of the compositing inversion: if the target channel
is the rounding of `α·f + (1−α)·b` and `α ≥ 1/3`, the reconstructed channel is
within 1 of `f`. -/
lemma invert_channel_close (f b : ℤ) (α : ℚ) (hf0 : 0 ≤ f) (hf1 : f ≤ 255)
    (hα1 : 1/3 ≤ α) (_hα2 : α ≤ 1) :
    |clampRGBValue ((((jsRound (α * (f : ℚ) + (1 - α) * (b : ℚ))) : ℚ) -
      (b : ℚ) * (1 - α)) / α) - f| ≤ 1 := by
  set y := α * (f : ℚ) + (1 - α) * (b : ℚ) with hy
  set t := jsRound y with ht
  have hαpos : 0 < α := by linarith
  have he1 : (t : ℚ) - y ≤ 1/2 := by have := jsRound_le_of y; rw [ht]; linarith
  have he2 : -(1/2) < (t : ℚ) - y := by have := jsRound_gt_of y; rw [ht]; linarith
  have harg : ((t : ℚ) - (b : ℚ) * (1 - α)) / α = (f : ℚ) + ((t : ℚ) - y) / α := by
    field_simp
    ring
  set d := ((t : ℚ) - y) / α with hd
  have hd_ub : d < 3/2 := by
    rw [hd, div_lt_iff₀ hαpos]
    rcases eq_or_lt_of_le hα1 with heq | hgt
    · by_cases he : (t : ℚ) - y = 1/2
      · exfalso
        have h6 : (6 : ℚ) * t = 2 * f + 4 * b + 3 := by
          have hyv : y = α * (f : ℚ) + (1 - α) * (b : ℚ) := hy
          rw [← heq] at hyv
          have : (t : ℚ) = y + 1/2 := by linarith
          rw [this, hyv]
          ring
        have h6' : (6 : ℤ) * t = 2 * f + 4 * b + 3 := by exact_mod_cast h6
        omega
      · have hlt : (t : ℚ) - y < 1/2 := lt_of_le_of_ne he1 he
        nlinarith
    · nlinarith
  have hd_lb : -(3/2) < d := by
    rw [hd, lt_div_iff₀ hαpos]
    nlinarith
  have hround : jsRound ((f : ℚ) + d) = f + ⌊d + 1/2⌋ := by
    unfold jsRound
    rw [show (f : ℚ) + d + 1/2 = d + 1/2 + (f : ℚ) by ring, Int.floor_add_int]
    omega
  have hk : ⌊d + 1/2⌋ = -1 ∨ ⌊d + 1/2⌋ = 0 ∨ ⌊d + 1/2⌋ = 1 := by
    have h1 : (-1 : ℤ) ≤ ⌊d + 1/2⌋ := by
      apply Int.le_floor.mpr
      push_cast
      linarith
    have h2 : ⌊d + 1/2⌋ < 2 := by
      apply Int.floor_lt.mpr
      push_cast
      linarith
    omega
  unfold clampRGBValue
  rw [harg, hround]
  rcases hk with hk | hk | hk <;>
  · rw [hk, abs_le, max_def, min_def]
    split_ifs <;> constructor <;> omega

theorem C5_compositing_inversion_within_one (fr fg fb br bg2 bb : ℤ) (α : ℚ)
    (hfr : 0 ≤ fr ∧ fr ≤ 255) (hfg : 0 ≤ fg ∧ fg ≤ 255) (hfb : 0 ≤ fb ∧ fb ≤ 255)
    (hbr : 0 ≤ br ∧ br ≤ 255) (hbg : 0 ≤ bg2 ∧ bg2 ≤ 255) (hbb : 0 ≤ bb ∧ bb ≤ 255)
    (hα : 1/3 ≤ α ∧ α ≤ 1) :
    ∃ r' g' b' : ℤ,
      calculateTransparentColor
          (rgbToHex ⟨((jsRound (α * (fr : ℚ) + (1 - α) * (br : ℚ)) : ℤ) : ℚ),
                     ((jsRound (α * (fg : ℚ) + (1 - α) * (bg2 : ℚ)) : ℤ) : ℚ),
                     ((jsRound (α * (fb : ℚ) + (1 - α) * (bb : ℚ)) : ℤ) : ℚ)⟩)
          (rgbToHex ⟨((br : ℤ) : ℚ), ((bg2 : ℤ) : ℚ), ((bb : ℤ) : ℚ)⟩) α =
        "rgba(" ++ toString r' ++ ", " ++ toString g' ++ ", " ++ toString b' ++ ", " ++
          toFixed3 α ++ ")" ∧
      |r' - fr| ≤ 1 ∧ |g' - fg| ≤ 1 ∧ |b' - fb| ≤ 1 := by
  have hcomb : ∀ f b : ℤ, 0 ≤ f → f ≤ 255 → 0 ≤ b → b ≤ 255 →
      0 ≤ α * (f : ℚ) + (1 - α) * (b : ℚ) ∧ α * (f : ℚ) + (1 - α) * (b : ℚ) ≤ 255 := by
    intro f b h1 h2 h3 h4
    have hf' : (0 : ℚ) ≤ f := by exact_mod_cast h1
    have hf2 : (f : ℚ) ≤ 255 := by exact_mod_cast h2
    have hb' : (0 : ℚ) ≤ b := by exact_mod_cast h3
    have hb2 : (b : ℚ) ≤ 255 := by exact_mod_cast h4
    constructor <;> nlinarith [hα.1, hα.2]
  obtain ⟨hr0, hr1⟩ := jsRound_bounds255 _ (hcomb fr br hfr.1 hfr.2 hbr.1 hbr.2).1
    (hcomb fr br hfr.1 hfr.2 hbr.1 hbr.2).2
  obtain ⟨hg0, hg1⟩ := jsRound_bounds255 _ (hcomb fg bg2 hfg.1 hfg.2 hbg.1 hbg.2).1
    (hcomb fg bg2 hfg.1 hfg.2 hbg.1 hbg.2).2
  obtain ⟨hb0, hb1⟩ := jsRound_bounds255 _ (hcomb fb bb hfb.1 hfb.2 hbb.1 hbb.2).1
    (hcomb fb bb hfb.1 hfb.2 hbb.1 hbb.2).2
  unfold calculateTransparentColor
  rw [hexToRGB_rgbToHex _ _ _ hr0 hr1 hg0 hg1 hb0 hb1,
    hexToRGB_rgbToHex _ _ _ hbr.1 hbr.2 hbg.1 hbg.2 hbb.1 hbb.2,
    if_neg (by intro h0; rw [h0] at hα; norm_num at hα)]
  refine ⟨_, _, _, rfl, ?_, ?_, ?_⟩
  · exact invert_channel_close fr br α hfr.1 hfr.2 hα.1 hα.2
  · exact invert_channel_close fg bg2 α hfg.1 hfg.2 hα.1 hα.2
  · exact invert_channel_close fb bb α hfb.1 hfb.2 hα.1 hα.2
theorem C5_compositing_inversion_counterexample :
    jsRound ((1/10 : ℚ) * ((103 : ℤ) : ℚ) + (1 - 1/10) * ((0 : ℤ) : ℚ)) = 10 ∧
    calculateTransparentColor (rgbToHex ⟨((10 : ℤ) : ℚ), ((0 : ℤ) : ℚ), ((0 : ℤ) : ℚ)⟩)
        (rgbToHex ⟨((0 : ℤ) : ℚ), ((0 : ℤ) : ℚ), ((0 : ℤ) : ℚ)⟩) (1/10) =
      "rgba(100, 0, 0, 0.100)" ∧
    ¬ (|(100 : ℤ) - 103| ≤ 1) := by
  refine ⟨by norm_num [jsRound], ?_, by decide⟩
  unfold calculateTransparentColor
  rw [hexToRGB_rgbToHex 10 0 0 (by norm_num) (by norm_num) (by norm_num) (by norm_num)
      (by norm_num) (by norm_num),
    hexToRGB_rgbToHex 0 0 0 (by norm_num) (by norm_num) (by norm_num) (by norm_num)
      (by norm_num) (by norm_num),
    if_neg (by norm_num)]
  dsimp only
  norm_num [clampRGBValue, jsRound, toFixed3]
  rfl

theorem C5_compositing_inversion_witness :
    ((0 : ℤ) ≤ 103 ∧ (103 : ℤ) ≤ 255) ∧ (1/3 : ℚ) ≤ 1/2 ∧ (1/2 : ℚ) ≤ 1 ∧
    ∃ r' g' b' : ℤ,
      calculateTransparentColor
          (rgbToHex ⟨((jsRound ((1/2) * ((103 : ℤ) : ℚ) + (1 - 1/2) * ((40 : ℤ) : ℚ)) : ℤ) : ℚ),
                     ((jsRound ((1/2) * ((0 : ℤ) : ℚ) + (1 - 1/2) * ((50 : ℤ) : ℚ)) : ℤ) : ℚ),
                     ((jsRound ((1/2) * ((7 : ℤ) : ℚ) + (1 - 1/2) * ((60 : ℤ) : ℚ)) : ℤ) : ℚ)⟩)
          (rgbToHex ⟨((40 : ℤ) : ℚ), ((50 : ℤ) : ℚ), ((60 : ℤ) : ℚ)⟩) (1/2) =
        "rgba(" ++ toString r' ++ ", " ++ toString g' ++ ", " ++ toString b' ++ ", " ++
          toFixed3 (1/2) ++ ")" ∧
      |r' - 103| ≤ 1 ∧ |g' - 0| ≤ 1 ∧ |b' - 7| ≤ 1 :=
  ⟨⟨by norm_num, by norm_num⟩, by norm_num, by norm_num,
    C5_compositing_inversion_within_one 103 0 7 40 50 60 (1/2) ⟨by norm_num, by norm_num⟩
      ⟨by norm_num, by norm_num⟩ ⟨by norm_num, by norm_num⟩ ⟨by norm_num, by norm_num⟩
      ⟨by norm_num, by norm_num⟩ ⟨by norm_num, by norm_num⟩ ⟨by norm_num, by norm_num⟩⟩

/-! ## Parse-failure behavior of calculateTransparentColor (claim C9) -/

lemma hexToRGB_of_not_valid (s : String) (h : isValidHexColor s = false) :
    hexToRGB s = ⟨0, 0, 0⟩ := by
  unfold hexToRGB
  unfold isValidHexColor at h
  by_cases h1 : jsTrim s = ""
  · rw [if_pos h1]
  · rw [if_neg h1] at h ⊢
    dsimp only at h ⊢
    cases hp : hexParseChannels
        (if jsStartsWith (jsTrim s) "#" then jsTrim s else "#" ++ jsTrim s).data with
    | none => rfl
    | some v =>
      rw [hp] at h
      simp at h

theorem C9_parse_failure_substitutes_black (ts bs : String) (α : ℚ) :
    (isValidHexColor ts = false →
      calculateTransparentColor ts bs α = calculateTransparentColor "#000000" bs α) ∧
    (isValidHexColor bs = false →
      calculateTransparentColor ts bs α = calculateTransparentColor ts "#000000" α) := by
  have hblack : hexToRGB "#000000" = ⟨0, 0, 0⟩ := by decide
  constructor
  · intro h
    unfold calculateTransparentColor
    rw [hexToRGB_of_not_valid ts h, hblack]
  · intro h
    unfold calculateTransparentColor
    rw [hexToRGB_of_not_valid bs h, hblack]

theorem C9_parse_failure_counterexample :
    isValidHexColor "oops" = false ∧
    calculateTransparentColor "#808080" "oops" (1/2) = "rgba(255, 255, 255, 0.500)" ∧
    "rgba(255, 255, 255, 0.500)" ≠ "rgba(0, 0, 0, 0.500)" ∧
    "rgba(255, 255, 255, 0.500)" ≠ "rgba(0, 0, 0, 1.000)" := by
  refine ⟨by decide, ?_, by decide, by decide⟩
  unfold calculateTransparentColor
  rw [show hexToRGB "#808080" = ⟨128, 128, 128⟩ from by decide,
    show hexToRGB "oops" = ⟨0, 0, 0⟩ from by decide, if_neg (by norm_num)]
  dsimp only
  norm_num [clampRGBValue, jsRound, toFixed3]
  rfl

theorem C9_parse_failure_substitutes_black_witness :
    isValidHexColor "oops" = false ∧
    calculateTransparentColor "#808080" "oops" (1/2) =
      calculateTransparentColor "#808080" "#000000" (1/2) :=
  ⟨by decide, (C9_parse_failure_substitutes_black "#808080" "oops" (1/2)).2 (by decide)⟩


/-! ## Hue normalization (claim C7) -/

theorem normalizeHueAdd_spec (hue : ℚ) :
    0 ≤ normalizeHueAdd hue ∧ ∃ n : ℤ, normalizeHueAdd hue = hue + 360 * n := by
  induction hue using normalizeHueAdd.induct with
  | case1 hue hneg ih =>
    rw [normalizeHueAdd, dif_pos hneg]
    obtain ⟨h0, n, hn⟩ := ih
    exact ⟨h0, n + 1, by rw [hn]; push_cast; ring⟩
  | case2 hue hpos =>
    rw [normalizeHueAdd, dif_neg hpos]
    exact ⟨by linarith [not_lt.mp hpos], 0, by ring⟩

theorem normalizeHueSub_spec (hue : ℚ) :
    normalizeHueSub hue < 360 ∧ (0 ≤ hue → 0 ≤ normalizeHueSub hue) ∧
      ∃ n : ℤ, normalizeHueSub hue = hue + 360 * n := by
  induction hue using normalizeHueSub.induct with
  | case1 hue hge ih =>
    rw [normalizeHueSub, dif_pos hge]
    obtain ⟨h0, hpos, n, hn⟩ := ih
    exact ⟨h0, fun _ => hpos (by linarith), n - 1, by rw [hn]; push_cast; ring⟩
  | case2 hue hlt =>
    rw [normalizeHueSub, dif_neg hlt]
    exact ⟨by linarith [not_le.mp hlt], fun h => h, 0, by ring⟩

theorem normalizeHue_mem (x : ℚ) : 0 ≤ normalizeHue x ∧ normalizeHue x < 360 := by
  obtain ⟨ha, _, _⟩ := normalizeHueAdd_spec x
  obtain ⟨hs1, hs2, _⟩ := normalizeHueSub_spec (normalizeHueAdd x)
  exact ⟨hs2 ha, hs1⟩

theorem normalizeHue_sub_int (x : ℚ) : ∃ n : ℤ, normalizeHue x = x + 360 * n := by
  obtain ⟨_, n, hn⟩ := normalizeHueAdd_spec x
  obtain ⟨_, _, m, hm⟩ := normalizeHueSub_spec (normalizeHueAdd x)
  exact ⟨n + m, by rw [normalizeHue, hm, hn]; push_cast; ring⟩

/-- Two values of `[0, 360)` that differ by an integer multiple of 360 are
equal. -/
theorem eq_of_mem_Ico_of_sub_int {a b : ℚ} (ha : 0 ≤ a ∧ a < 360)
    (hb : 0 ≤ b ∧ b < 360) (k : ℤ) (h : a - b = 360 * k) : a = b := by
  have hk0 : ((k : ℚ)) = 0 := by
    by_contra hk
    rcases lt_or_gt_of_ne hk with hlt | hgt
    · have hk1 : k ≤ -1 := by
        have : k < 0 := by exact_mod_cast hlt
        omega
      have : (k : ℚ) ≤ -1 := by exact_mod_cast hk1
      nlinarith [ha.1, ha.2, hb.1, hb.2]
    · have hk1 : 1 ≤ k := by
        have : 0 < k := by exact_mod_cast hgt
        omega
      have : (1 : ℚ) ≤ (k : ℚ) := by exact_mod_cast hk1
      nlinarith [ha.1, ha.2, hb.1, hb.2]
  have : a - b = 0 := by rw [h, hk0, mul_zero]
  linarith

/-- C7.  Hue normalization: for every finite `x`, `normalizeHue x` lies in
`[0, 360)`, and for every integer `k`, `normalizeHue (x + 360·k)` equals
`normalizeHue x`. -/
theorem C7_normalizeHue_range_and_period (x : ℚ) (k : ℤ) :
    (0 ≤ normalizeHue x ∧ normalizeHue x < 360) ∧
      normalizeHue (x + 360 * k) = normalizeHue x := by
  refine ⟨normalizeHue_mem x, ?_⟩
  obtain ⟨n, hn⟩ := normalizeHue_sub_int (x + 360 * k)
  obtain ⟨m, hm⟩ := normalizeHue_sub_int x
  refine eq_of_mem_Ico_of_sub_int (normalizeHue_mem _) (normalizeHue_mem _) (k + n - m) ?_
  rw [hn, hm]; push_cast; ring

/-! ## The even lightness scale (claim C2) -/

/-- Closed form of `calculateEvenScale` after defaulting the anchor: `c` is
the clamped input lightness, the anchor keeps `c`, levels above interpolate
toward 96 and levels below toward 16, and every value is re-clamped. -/
def evenScaleSpec (c : ℚ) (eff : ℤ) : ScaleRecord :=
  SCALE_LEVELS.map (fun l =>
    (l, if l = eff then max 16 (min 96 c)
        else if l < eff then
          max 16 (min 96 (min (c + (96 - c) / (((eff - 50) / 50 : ℤ) : ℚ) *
            (((eff - l) / 50 : ℤ) : ℚ)) 96))
        else
          max 16 (min 96 (max (c - (c - 16) / (((950 - eff) / 50 : ℤ) : ℚ) *
            (((l - eff) / 50 : ℤ) : ℚ)) 16))))

lemma clamp96_mono {a b : ℚ} (hab : a ≤ b) :
    max 16 (min 96 a) ≤ max 16 (min 96 b) := max_le_max le_rfl (min_le_min le_rfl hab)

lemma clamp96_lb (a : ℚ) : 16 ≤ max 16 (min 96 a) := le_max_left _ _

lemma clamp96_ub (a : ℚ) : max 16 (min 96 a) ≤ 96 :=
  max_le (by norm_num) (min_le_left _ _)

lemma clamp96_idem (a : ℚ) :
    max 16 (min 96 (max 16 (min 96 a))) = max 16 (min 96 a) := by
  rw [min_eq_right (clamp96_ub a), ← max_assoc, max_self]

set_option maxRecDepth 8000 in
set_option maxHeartbeats 12000000 in
/-- `calculateEvenScale` agrees with the closed form `evenScaleSpec`. -/
theorem calculateEvenScale_eq_spec (q : ℚ) (b : ℤ) :
    calculateEvenScale q b =
      evenScaleSpec (max 16 (min 96 q)) (if SCALE_LEVELS.contains b then b else 500) := by
  by_cases hb : b ∈ SCALE_LEVELS
  · simp only [SCALE_LEVELS] at hb
    fin_cases hb <;>
    · unfold calculateEvenScale evenScaleSpec
      simp only [MIN_LIGHTNESS, MAX_LIGHTNESS, MIN_LEVEL, MAX_LEVEL]
      set c := max (16 : ℚ) (min 96 q) with hc
      simp [scaleLookup, SCALE_LEVELS, List.range', List.find?, List.filterMap_cons,
        List.map_cons, Function.comp, Option.map, Int.reduceBEq]
  · have hbc : SCALE_LEVELS.contains b = false := by
      rw [Bool.eq_false_iff]
      intro hcon
      exact hb (List.mem_of_elem_eq_true hcon)
    unfold calculateEvenScale evenScaleSpec
    simp only [MIN_LIGHTNESS, MAX_LIGHTNESS, MIN_LEVEL, MAX_LEVEL, hbc]
    set c := max (16 : ℚ) (min 96 q) with hc
    simp [scaleLookup, SCALE_LEVELS, List.range', List.find?, List.filterMap_cons,
      List.map_cons, Function.comp, Option.map, Int.reduceBEq]

lemma evenScaleSpec_keys (c : ℚ) (eff : ℤ) :
    (evenScaleSpec c eff).map Prod.fst = SCALE_LEVELS := by
  simp [evenScaleSpec, SCALE_LEVELS]

lemma evenScaleSpec_bounds (c : ℚ) (eff : ℤ) :
    ∀ p ∈ evenScaleSpec c eff, 16 ≤ p.2 ∧ p.2 ≤ 96 := by
  intro p hp
  simp only [evenScaleSpec, List.mem_map] at hp
  obtain ⟨l, hl, rfl⟩ := hp
  dsimp only
  split_ifs <;> exact ⟨clamp96_lb _, clamp96_ub _⟩

lemma evenScaleSpec_lookup (c : ℚ) (eff : ℤ) (heff : eff ∈ SCALE_LEVELS) :
    scaleLookup (evenScaleSpec c eff) eff = some (max 16 (min 96 c)) := by
  fin_cases heff <;>
    simp [evenScaleSpec, scaleLookup, SCALE_LEVELS, List.find?, Int.reduceBEq]

set_option maxHeartbeats 1000000 in
lemma evenScaleSpec_chain (c : ℚ) (hc1 : 16 ≤ c) (hc2 : c ≤ 96) (eff : ℤ)
    (heff : eff ∈ SCALE_LEVELS) :
    List.Chain' (fun a b : ℤ × ℚ => b.2 ≤ a.2) (evenScaleSpec c eff) := by
  fin_cases heff <;>
  · simp only [evenScaleSpec, SCALE_LEVELS, List.map_cons, List.map_nil, List.chain'_cons,
      List.chain'_singleton, and_true, Int.reduceEq, Int.reduceLT, reduceIte,
      Int.reduceSub, Int.reduceDiv, Int.cast_ofNat]
    refine ⟨?_, ?_, ?_, ?_, ?_, ?_, ?_, ?_, ?_, ?_⟩ <;>
      apply clamp96_mono <;>
      first
        | exact min_le_min (by linarith) le_rfl
        | exact le_min (by linarith) (by linarith)
        | exact max_le (by linarith) (by linarith)
        | exact max_le_max (by linarith) le_rfl

/-- C2.  For every input lightness and every anchor level (defaulting to 500
when invalid), `calculateEvenScale` is defined for exactly the 11 levels in
ascending order, all values lie in `[16, 96]`, the values are non-increasing
as the level increases, and the value at the (defaulted) anchor level is the
input lightness clamped to `[16, 96]`, exactly. -/
theorem C2_calculateEvenScale_invariants (input : ℚ) (base : ℤ) :
    ((calculateEvenScale input base).map Prod.fst = SCALE_LEVELS) ∧
    (∀ p ∈ calculateEvenScale input base,
      MIN_LIGHTNESS ≤ p.2 ∧ p.2 ≤ MAX_LIGHTNESS) ∧
    List.Chain' (fun a b : ℤ × ℚ => b.2 ≤ a.2) (calculateEvenScale input base) ∧
    scaleLookup (calculateEvenScale input base)
        (if SCALE_LEVELS.contains base then base else 500) =
      some (max MIN_LIGHTNESS (min MAX_LIGHTNESS input)) := by
  have heff : (if SCALE_LEVELS.contains base then base else 500) ∈ SCALE_LEVELS := by
    split_ifs with h
    · exact List.mem_of_elem_eq_true h
    · decide
  rw [calculateEvenScale_eq_spec]
  simp only [MIN_LIGHTNESS, MAX_LIGHTNESS]
  refine ⟨evenScaleSpec_keys _ _, evenScaleSpec_bounds _ _,
    evenScaleSpec_chain _ (clamp96_lb _) (clamp96_ub _) _ heff, ?_⟩
  rw [evenScaleSpec_lookup _ _ heff, clamp96_idem]

/-! ## Hue-shift range (claim C6) -/

lemma foldl_jsMin_num (l : List ℚ) (a : ℚ) :
    l.foldl (fun acc v => acc.jsMin (JsNum.num v)) (JsNum.num a) =
      JsNum.num (l.foldl min a) := by
  induction l generalizing a with
  | nil => rfl
  | cons x t ih =>
    rw [List.foldl_cons, List.foldl_cons]
    exact ih (min a x)

lemma foldl_jsMax_num (l : List ℚ) (a : ℚ) :
    l.foldl (fun acc v => acc.jsMax (JsNum.num v)) (JsNum.num a) =
      JsNum.num (l.foldl max a) := by
  induction l generalizing a with
  | nil => rfl
  | cons x t ih =>
    rw [List.foldl_cons, List.foldl_cons]
    exact ih (max a x)

lemma foldl_min_le (l : List ℚ) (a : ℚ) :
    l.foldl min a ≤ a ∧ ∀ x ∈ l, l.foldl min a ≤ x := by
  induction l generalizing a with
  | nil => simp
  | cons y t ih =>
    obtain ⟨h1, h2⟩ := ih (min a y)
    refine ⟨le_trans h1 (min_le_left _ _), ?_⟩
    intro x hx
    rcases List.mem_cons.mp hx with rfl | hx
    · exact le_trans h1 (min_le_right _ _)
    · exact h2 x hx

lemma foldl_max_ge (l : List ℚ) (a : ℚ) :
    a ≤ l.foldl max a ∧ ∀ x ∈ l, x ≤ l.foldl max a := by
  induction l generalizing a with
  | nil => simp
  | cons y t ih =>
    obtain ⟨h1, h2⟩ := ih (max a y)
    refine ⟨le_trans (le_max_left _ _) h1, ?_⟩
    intro x hx
    rcases List.mem_cons.mp hx with rfl | hx
    · exact le_trans (le_max_right _ _) h1
    · exact h2 x hx

lemma foldl_min_mem (l : List ℚ) (a : ℚ) :
    l.foldl min a = a ∨ l.foldl min a ∈ l := by
  induction l generalizing a with
  | nil => simp
  | cons y t ih =>
    rw [List.foldl_cons]
    rcases ih (min a y) with h | h
    · rw [h]
      rcases min_cases a y with ⟨he, _⟩ | ⟨he, _⟩
      · left; exact he
      · right; rw [he]; exact List.mem_cons_self _ _
    · right; exact List.mem_cons_of_mem _ h

lemma foldl_max_mem (l : List ℚ) (a : ℚ) :
    l.foldl max a = a ∨ l.foldl max a ∈ l := by
  induction l generalizing a with
  | nil => simp
  | cons y t ih =>
    rw [List.foldl_cons]
    rcases ih (max a y) with h | h
    · rw [h]
      rcases max_cases a y with ⟨he, _⟩ | ⟨he, _⟩
      · left; exact he
      · right; rw [he]; exact List.mem_cons_self _ _
    · right; exact List.mem_cons_of_mem _ h

/-- On a non-empty list, `Math.min(...values)` is a finite value that bounds
the list from below and belongs to it. -/
lemma jsMinList_spec (l : List ℚ) (h : l ≠ []) :
    ∃ m : ℚ, jsMinList l = JsNum.num m ∧ (∀ x ∈ l, m ≤ x) ∧ m ∈ l := by
  match l, h with
  | x :: t, _ =>
    refine ⟨t.foldl min x, ?_, ?_, ?_⟩
    · show (x :: t).foldl (fun acc v => acc.jsMin (JsNum.num v)) JsNum.inf = _
      rw [List.foldl_cons]
      exact foldl_jsMin_num t x
    · intro y hy
      rcases List.mem_cons.mp hy with rfl | hy
      · exact (foldl_min_le t y).1
      · exact (foldl_min_le t x).2 y hy
    · rcases foldl_min_mem t x with he | he
      · rw [he]; exact List.mem_cons_self _ _
      · exact List.mem_cons_of_mem _ he

/-- On a non-empty list, `Math.max(...values)` is a finite value that bounds
the list from above and belongs to it. -/
lemma jsMaxList_spec (l : List ℚ) (h : l ≠ []) :
    ∃ M : ℚ, jsMaxList l = JsNum.num M ∧ (∀ x ∈ l, x ≤ M) ∧ M ∈ l := by
  match l, h with
  | x :: t, _ =>
    refine ⟨t.foldl max x, ?_, ?_, ?_⟩
    · show (x :: t).foldl (fun acc v => acc.jsMax (JsNum.num v)) JsNum.ninf = _
      rw [List.foldl_cons]
      exact foldl_jsMax_num t x
    · intro y hy
      rcases List.mem_cons.mp hy with rfl | hy
      · exact (foldl_max_ge t y).1
      · exact (foldl_max_ge t x).2 y hy
    · rcases foldl_max_mem t x with he | he
      · rw [he]; exact List.mem_cons_self _ _
      · exact List.mem_cons_of_mem _ he

/-- The lightness-based intensity is a finite number unless the scale range is
zero while the lightness difference is also zero. -/
lemma intensity_is_num (diff : ℚ) (scale : ScaleRecord) (hne : scale ≠ [])
    (h : diff ≠ 0 ∨ ∃ p ∈ scale, ∃ p' ∈ scale, p.2 ≠ p'.2) :
    ∃ t : ℚ, calculateHueIntensityByLightness diff scale = JsNum.num t := by
  have hvne : scale.map Prod.snd ≠ [] := by simpa using hne
  obtain ⟨m, hm, hmle, hmmem⟩ := jsMinList_spec _ hvne
  obtain ⟨M, hM, hMge, hMmem⟩ := jsMaxList_spec _ hvne
  unfold calculateHueIntensityByLightness
  dsimp only
  rw [hm, hM]
  show ∃ t, (JsNum.num (-1)).jsMax
    (((JsNum.num diff).div (JsNum.num (M - m))).jsMin (JsNum.num 1)) = JsNum.num t
  by_cases hr : M - m = 0
  · by_cases hd : diff = 0
    · exfalso
      rcases h with hd' | ⟨p, hp, p', hp', hpp⟩
      · exact hd' hd
      · apply hpp
        have h1 := hmle p.2 (List.mem_map_of_mem Prod.snd hp)
        have h2 := hMge p.2 (List.mem_map_of_mem Prod.snd hp)
        have h3 := hmle p'.2 (List.mem_map_of_mem Prod.snd hp')
        have h4 := hMge p'.2 (List.mem_map_of_mem Prod.snd hp')
        linarith
    · rcases lt_or_gt_of_ne hd with hneg | hpos
      · refine ⟨-1, ?_⟩
        simp only [JsNum.div, if_pos hr, if_neg hd, if_neg (not_lt.mpr (le_of_lt hneg))]
        rfl
      · refine ⟨1, ?_⟩
        simp only [JsNum.div, if_pos hr, if_neg hd, if_pos hpos]
        rfl
  · refine ⟨max (-1) (min (diff / (M - m)) 1), ?_⟩
    simp only [JsNum.div, if_neg hr]
    rfl

/-- C6 (amended).  For hue-shift modes `natural` and `unnatural`, every finite
`baseHue`, and every non-empty lightness scale, `calculateHueShift` returns a
finite number in `[0, 360)` — provided the degenerate combination "zero scale
range and zero lightness difference" is excluded; in that one case the source
divides 0 by 0 and returns NaN (see the counterexample). -/
theorem C6_calculateHueShift_in_range (cosF : ℚ → ℚ)
    (baseHue baseLightness targetLightness : ℚ) (scale : ScaleRecord)
    (mode : HueShiftMode)
    (hmode : mode = HueShiftMode.natural ∨ mode = HueShiftMode.unnatural)
    (hne : scale ≠ [])
    (h : targetLightness - baseLightness ≠ 0 ∨ ∃ p ∈ scale, ∃ p' ∈ scale, p.2 ≠ p'.2) :
    ∃ h' : ℚ, calculateHueShift cosF baseHue baseLightness targetLightness scale mode =
      JsNum.num h' ∧ 0 ≤ h' ∧ h' < 360 := by
  obtain ⟨t, ht⟩ := intensity_is_num (targetLightness - baseLightness) scale hne h
  have hfix : ¬ mode = HueShiftMode.fixed := by rcases hmode with rfl | rfl <;> simp
  unfold calculateHueShift
  rw [if_neg hfix]
  dsimp only
  rw [ht]
  rcases hmode with rfl | rfl
  · simp only [JsNum.mul, JsNum.add, normalizeHueJS, reduceCtorEq, if_false]
    exact ⟨_, rfl, (normalizeHue_mem _).1, (normalizeHue_mem _).2⟩
  · simp only [JsNum.mul, JsNum.neg, JsNum.add, normalizeHueJS, if_true]
    exact ⟨_, rfl, (normalizeHue_mem _).1, (normalizeHue_mem _).2⟩

/-- C6 witness: a concrete instance of `C6_calculateHueShift_in_range` with
all hypotheses discharged on concrete input. -/
theorem C6_calculateHueShift_in_range_witness :
    (HueShiftMode.natural = HueShiftMode.natural ∨
      HueShiftMode.natural = HueShiftMode.unnatural) ∧
    ([((50 : ℤ), (96 : ℚ)), ((950 : ℤ), (16 : ℚ))] : ScaleRecord) ≠ [] ∧
    ((60 : ℚ) - 40 ≠ 0 ∨ ∃ p ∈ ([((50 : ℤ), (96 : ℚ)), ((950 : ℤ), (16 : ℚ))] : ScaleRecord),
      ∃ p' ∈ ([((50 : ℤ), (96 : ℚ)), ((950 : ℤ), (16 : ℚ))] : ScaleRecord), p.2 ≠ p'.2) ∧
    ∃ h' : ℚ, calculateHueShift (fun _ => 1) 10 40 60
        [((50 : ℤ), (96 : ℚ)), ((950 : ℤ), (16 : ℚ))] HueShiftMode.natural =
      JsNum.num h' ∧ 0 ≤ h' ∧ h' < 360 :=
  ⟨Or.inl rfl, by decide, Or.inl (by norm_num),
    C6_calculateHueShift_in_range (fun _ => 1) 10 40 60
      [((50 : ℤ), (96 : ℚ)), ((950 : ℤ), (16 : ℚ))] HueShiftMode.natural
      (Or.inl rfl) (by decide) (Or.inl (by norm_num))⟩

/-- C6 counterexample: with an all-equal (zero-range) non-empty scale and a
zero lightness difference, `calculateHueShift` in `natural` mode returns NaN,
not a number in `[0, 360)` — the claim as stated is false. -/
theorem C6_calculateHueShift_counterexample :
    calculateHueShift (fun _ => 0) 0 50 50 [((500 : ℤ), (50 : ℚ))] HueShiftMode.natural
      = JsNum.nan ∧
    ¬ ∃ q : ℚ, calculateHueShift (fun _ => 0) 0 50 50 [((500 : ℤ), (50 : ℚ))]
        HueShiftMode.natural = JsNum.num q ∧ 0 ≤ q ∧ q < 360 := by
  have heq : calculateHueShift (fun _ => 0) 0 50 50 [((500 : ℤ), (50 : ℚ))]
      HueShiftMode.natural = JsNum.nan := by
    unfold calculateHueShift calculateHueIntensityByLightness jsMinList jsMaxList
    norm_num [JsNum.sub, JsNum.div, JsNum.mul, JsNum.add, JsNum.jsMin, JsNum.jsMax,
      JsNum.neg, normalizeHueJS, reduceCtorEq]
    intro hcon
    simp at hcon
  refine ⟨heq, ?_⟩
  rw [heq]
  rintro ⟨q, hq, _⟩
  simp at hq

/-! ## The HSL round trip (claim C3) -/

lemma jsRound_mono {a b : ℚ} (h : a ≤ b) : jsRound a ≤ jsRound b :=
  Int.floor_le_floor (by linarith)

lemma jsRound_abs_err (y : ℚ) : |((jsRound y : ℤ) : ℚ) - y| ≤ 1/2 := by
  rw [abs_le]
  constructor
  · have := jsRound_gt_of y
    linarith
  · have := jsRound_le_of y
    linarith

/-- Rounding two points at distance at most 1 gives integers at distance at
most 1. -/
lemma jsRound_close {a b : ℚ} (h : |b - a| ≤ 1) :
    |((jsRound b : ℤ) : ℚ) - ((jsRound a : ℤ) : ℚ)| ≤ 1 := by
  have h1 : jsRound a - 1 ≤ jsRound b ∧ jsRound b ≤ jsRound a + 1 := by
    rw [abs_le] at h
    constructor
    · have hm : jsRound (a - 1) ≤ jsRound b := jsRound_mono (by linarith)
      have he : jsRound (a - 1) = jsRound a - 1 := by
        unfold jsRound
        rw [show a - 1 + 1/2 = a + 1/2 - 1 by ring]
        exact_mod_cast Int.floor_sub_int (a + 1/2) 1
      omega
    · have hm : jsRound b ≤ jsRound (a + 1) := jsRound_mono (by linarith)
      have he : jsRound (a + 1) = jsRound a + 1 := by
        unfold jsRound
        rw [show a + 1 + 1/2 = a + 1/2 + 1 by ring]
        exact_mod_cast Int.floor_add_int (a + 1/2) 1
      omega
  have hcast : ((jsRound a - 1 : ℤ) : ℚ) ≤ (jsRound b : ℚ) ∧
      ((jsRound b : ℤ) : ℚ) ≤ ((jsRound a + 1 : ℤ) : ℚ) := by
    constructor <;> exact_mod_cast (by omega : (_ : ℤ) ≤ _)
  rw [abs_le]
  push_cast at hcast ⊢
  constructor <;> linarith [hcast.1, hcast.2]

/-- The scalar quantities of `hslToRGB` and their basic bounds. -/
lemma hsl_scalar_facts (s L : ℚ) :
    0 ≤ max 0 (min 100 L) / 100 ∧ max 0 (min 100 L) / 100 ≤ 1 ∧
    0 ≤ max 0 (min 100 s) / 100 ∧ max 0 (min 100 s) / 100 ≤ 1 ∧
    0 ≤ (1 - |2 * (max 0 (min 100 L) / 100) - 1|) * (max 0 (min 100 s) / 100) ∧
    0 ≤ max 0 (min 100 L) / 100 -
      (1 - |2 * (max 0 (min 100 L) / 100) - 1|) * (max 0 (min 100 s) / 100) / 2 ∧
    (1 - |2 * (max 0 (min 100 L) / 100) - 1|) * (max 0 (min 100 s) / 100) +
      (max 0 (min 100 L) / 100 -
        (1 - |2 * (max 0 (min 100 L) / 100) - 1|) * (max 0 (min 100 s) / 100) / 2) ≤ 1 := by
  set l := max 0 (min 100 L) / 100 with hl
  set s0 := max 0 (min 100 s) / 100 with hs0
  have hl0 : 0 ≤ l := by
    rw [hl]
    positivity
  have hl1 : l ≤ 1 := by
    rw [hl]
    rw [div_le_one (by norm_num : (0:ℚ) < 100)]
    exact max_le (by norm_num) (min_le_left _ _)
  have hs00 : 0 ≤ s0 := by
    rw [hs0]
    positivity
  have hs01 : s0 ≤ 1 := by
    rw [hs0]
    rw [div_le_one (by norm_num : (0:ℚ) < 100)]
    exact max_le (by norm_num) (min_le_left _ _)
  have habs : |2 * l - 1| ≤ 1 := by
    rw [abs_le]
    constructor <;> linarith
  have habs1 : 1 - 2 * l ≤ |2 * l - 1| := by
    have := neg_le_abs (2 * l - 1)
    linarith
  have habs2 : 2 * l - 1 ≤ |2 * l - 1| := le_abs_self _
  refine ⟨hl0, hl1, hs00, hs01, ?_, ?_, ?_⟩
  · have : 0 ≤ 1 - |2 * l - 1| := by linarith
    positivity
  · nlinarith
  · nlinarith

/-- The `.l` component of `rgbToHSL` on integer channels in range. -/
lemma rgbToHSL_l_of_int (a b c : ℤ) (ha : 0 ≤ a ∧ a ≤ 255) (hb : 0 ≤ b ∧ b ≤ 255)
    (hc : 0 ≤ c ∧ c ≤ 255) :
    (rgbToHSL ⟨(a : ℚ), (b : ℚ), (c : ℚ)⟩).l =
      (((max a (max b c) : ℤ) : ℚ) / 255 + ((min a (min b c) : ℤ) : ℚ) / 255) / 2 * 100 := by
  unfold rgbToHSL
  dsimp only
  have hclamp : ∀ z : ℤ, 0 ≤ z → z ≤ 255 → max 0 (min 255 ((z : ℤ) : ℚ)) = (z : ℚ) := by
    intro z h0 h1
    rw [min_eq_right (by exact_mod_cast h1), max_eq_right (by exact_mod_cast h0)]
  rw [hclamp a ha.1 ha.2, hclamp b hb.1 hb.2, hclamp c hc.1 hc.2]
  have hmax : max ((a : ℚ) / 255) (max ((b : ℚ) / 255) ((c : ℚ) / 255)) =
      ((max a (max b c) : ℤ) : ℚ) / 255 := by
    push_cast
    rw [max_div_div_right (by norm_num : (0:ℚ) ≤ 255),
      max_div_div_right (by norm_num : (0:ℚ) ≤ 255)]
  have hmin : min ((a : ℚ) / 255) (min ((b : ℚ) / 255) ((c : ℚ) / 255)) =
      ((min a (min b c) : ℤ) : ℚ) / 255 := by
    push_cast
    rw [min_div_div_right (by norm_num : (0:ℚ) ≤ 255),
      min_div_div_right (by norm_num : (0:ℚ) ≤ 255)]
  rw [hmax, hmin]
  rw [apply_ite HSL.l]
  dsimp only
  rw [ite_self]

/-- Channel Lipschitz bound: one channel of `hslToRGB` in canonical form
`c·T + m` moves by at most one 8-bit unit when the lightness parameter moves
by at most `1/510`. -/
lemma chan_close (l1 l2 s0 T : ℚ) (hs0 : 0 ≤ s0) (hs1 : s0 ≤ 1)
    (hT0 : 0 ≤ T) (hT1 : T ≤ 1) (hΔ : |l2 - l1| ≤ 1/510) :
    |((jsRound (((1 - |2 * l2 - 1|) * s0 * T +
        (l2 - (1 - |2 * l2 - 1|) * s0 / 2)) * 255) : ℤ) : ℚ) -
     ((jsRound (((1 - |2 * l1 - 1|) * s0 * T +
        (l1 - (1 - |2 * l1 - 1|) * s0 / 2)) * 255) : ℤ) : ℚ)| ≤ 1 := by
  set c1 := (1 - |2 * l1 - 1|) * s0 with hc1
  set c2 := (1 - |2 * l2 - 1|) * s0 with hc2
  apply jsRound_close
  have hdc : |c2 - c1| ≤ 2 * |l2 - l1| := by
    rw [hc1, hc2]
    rw [show (1 - |2 * l2 - 1|) * s0 - (1 - |2 * l1 - 1|) * s0 =
      (|2 * l1 - 1| - |2 * l2 - 1|) * s0 by ring]
    rw [abs_mul, abs_of_nonneg hs0]
    have h1 : |(|2 * l1 - 1| - |2 * l2 - 1|)| ≤ |(2 * l1 - 1) - (2 * l2 - 1)| :=
      abs_abs_sub_abs_le_abs_sub _ _
    have h2 : |(2 * l1 - 1) - (2 * l2 - 1)| = 2 * |l2 - l1| := by
      rw [show (2 * l1 - 1) - (2 * l2 - 1) = -(2 * (l2 - l1)) by ring, abs_neg, abs_mul]
      norm_num
    nlinarith [abs_nonneg (|2 * l1 - 1| - |2 * l2 - 1|)]
  have hT2 : |T - 1/2| ≤ 1/2 := by
    rw [abs_le]
    constructor <;> linarith
  have hkey : (c2 * T + (l2 - c2 / 2)) * 255 - (c1 * T + (l1 - c1 / 2)) * 255 =
      255 * ((l2 - l1) + (c2 - c1) * (T - 1/2)) := by ring
  rw [hkey]
  have hprod : |(c2 - c1) * (T - 1/2)| ≤ |l2 - l1| := by
    rw [abs_mul]
    calc |c2 - c1| * |T - 1/2| ≤ (2 * |l2 - l1|) * (1/2) := by
          apply mul_le_mul hdc hT2 (abs_nonneg _)
          positivity
      _ = |l2 - l1| := by ring
  have htri : |(l2 - l1) + (c2 - c1) * (T - 1/2)| ≤ 2 * |l2 - l1| := by
    have := abs_add (l2 - l1) ((c2 - c1) * (T - 1/2))
    linarith
  rw [abs_mul, abs_of_nonneg (by norm_num : (0:ℚ) ≤ 255)]
  nlinarith

lemma jsMod_nonneg_lt (a : ℚ) {n : ℚ} (hn : 0 < n) (ha : 0 ≤ a) :
    0 ≤ jsMod a n ∧ jsMod a n < n := by
  unfold jsMod jsTrunc
  rw [if_pos (by positivity)]
  have hfl : ((⌊a / n⌋ : ℤ) : ℚ) ≤ a / n := Int.floor_le _
  have hfu : a / n < ((⌊a / n⌋ : ℤ) : ℚ) + 1 := Int.lt_floor_add_one _
  have hna : n * (a / n) = a := by field_simp
  constructor
  · nlinarith
  · nlinarith

lemma jsMod_neg_mem (a : ℚ) {n : ℚ} (hn : 0 < n) (ha : a < 0) :
    -n < jsMod a n ∧ jsMod a n ≤ 0 := by
  unfold jsMod jsTrunc
  rw [if_neg (not_le.mpr (div_neg_of_neg_of_pos ha hn))]
  have hcl : a / n ≤ ((⌈a / n⌉ : ℤ) : ℚ) := Int.le_ceil _
  have hcu : ((⌈a / n⌉ : ℤ) : ℚ) < a / n + 1 := by
    have := Int.ceil_lt_add_one (a / n)
    push_cast at this
    linarith
  have hna : n * (a / n) = a := by field_simp
  constructor
  · nlinarith
  · nlinarith

/-- The sanitized hue `((h % 360) + 360) % 360` lies in `[0, 360)`. -/
lemma sanitizeHue_mem (h : ℚ) :
    0 ≤ jsMod (jsMod h 360 + 360) 360 ∧ jsMod (jsMod h 360 + 360) 360 < 360 := by
  have h360 : (0 : ℚ) < 360 := by norm_num
  rcases le_or_lt 0 h with hh | hh
  · have h1 := jsMod_nonneg_lt h h360 hh
    exact jsMod_nonneg_lt _ h360 (by linarith [h1.1])
  · have h1 := jsMod_neg_mem h h360 hh
    exact jsMod_nonneg_lt _ h360 (by linarith [h1.1])

/-- One channel of `hslToRGB`, as a scalar function of the saturation, the
lightness and the sector coefficient `T ∈ {0, t, 1}`. -/
def hslChanQ (s L T : ℚ) : ℚ :=
  ((1 - |2 * (max 0 (min 100 L) / 100) - 1|) * (max 0 (min 100 s) / 100) * T +
   (max 0 (min 100 L) / 100 -
    (1 - |2 * (max 0 (min 100 L) / 100) - 1|) * (max 0 (min 100 s) / 100) / 2)) * 255

lemma hslChanQ_mono (s L : ℚ) {T T' : ℚ} (h : T ≤ T') :
    hslChanQ s L T ≤ hslChanQ s L T' := by
  obtain ⟨_, _, _, _, hc, _, _⟩ := hsl_scalar_facts s L
  unfold hslChanQ
  nlinarith

lemma hslChanQ_round_bounds (s L T : ℚ) (hT0 : 0 ≤ T) (hT1 : T ≤ 1) :
    0 ≤ jsRound (hslChanQ s L T) ∧ jsRound (hslChanQ s L T) ≤ 255 := by
  obtain ⟨_, _, _, _, hc, hm, htop⟩ := hsl_scalar_facts s L
  refine jsRound_bounds255 _ ?_ ?_
  · unfold hslChanQ
    nlinarith
  · unfold hslChanQ
    nlinarith

set_option maxHeartbeats 1600000 in
/-- `hslToRGB` in canonical form: there are sector coefficients `T1 T2 T3`
in `[0,1]` depending only on the hue such that, for every lightness, the
channels are `(c·Ti + m)·255` rounded, the largest channel is the chroma-top
`(c + m)·255` rounded and the smallest is the offset `m·255` rounded. -/
lemma hslToRGB_form (h s : ℚ) : ∃ T1 T2 T3 : ℚ,
    (0 ≤ T1 ∧ T1 ≤ 1) ∧ (0 ≤ T2 ∧ T2 ≤ 1) ∧ (0 ≤ T3 ∧ T3 ≤ 1) ∧
    ∀ L : ℚ,
      hslToRGB ⟨h, s, L⟩ =
        ⟨((jsRound (hslChanQ s L T1) : ℤ) : ℚ), ((jsRound (hslChanQ s L T2) : ℤ) : ℚ),
         ((jsRound (hslChanQ s L T3) : ℤ) : ℚ)⟩ ∧
      max (jsRound (hslChanQ s L T1))
          (max (jsRound (hslChanQ s L T2)) (jsRound (hslChanQ s L T3)))
        = jsRound (hslChanQ s L 1) ∧
      min (jsRound (hslChanQ s L T1))
          (min (jsRound (hslChanQ s L T2)) (jsRound (hslChanQ s L T3)))
        = jsRound (hslChanQ s L 0) := by
  have hh0 := sanitizeHue_mem h
  have htm2 := jsMod_nonneg_lt (jsMod (jsMod h 360 + 360) 360 / 60)
    (by norm_num : (0:ℚ) < 2) (div_nonneg hh0.1 (by norm_num))
  set tm : ℚ := 1 - |jsMod (jsMod (jsMod h 360 + 360) 360 / 60) 2 - 1| with htmdef
  have htm : 0 ≤ tm ∧ tm ≤ 1 := by
    rw [htmdef]
    constructor
    · have habs : |jsMod (jsMod (jsMod h 360 + 360) 360 / 60) 2 - 1| ≤ 1 := by
        rw [abs_le]
        constructor <;> linarith [htm2.1, htm2.2]
      linarith
    · linarith [abs_nonneg (jsMod (jsMod (jsMod h 360 + 360) 360 / 60) 2 - 1)]
  have key : ∀ (L : ℚ) (A B C : ℚ), 0 ≤ A → A ≤ 1 → 0 ≤ B → B ≤ 1 → 0 ≤ C → C ≤ 1 →
      max (jsRound (hslChanQ s L A)) (max (jsRound (hslChanQ s L B)) (jsRound (hslChanQ s L C)))
        ≤ jsRound (hslChanQ s L 1) ∧
      jsRound (hslChanQ s L 0) ≤
        min (jsRound (hslChanQ s L A)) (min (jsRound (hslChanQ s L B)) (jsRound (hslChanQ s L C))) := by
    intro L A B C hA0 hA1 hB0 hB1 hC0 hC1
    have h1 := jsRound_mono (hslChanQ_mono s L hA1)
    have h2 := jsRound_mono (hslChanQ_mono s L hB1)
    have h3 := jsRound_mono (hslChanQ_mono s L hC1)
    have h4 := jsRound_mono (hslChanQ_mono s L hA0)
    have h5 := jsRound_mono (hslChanQ_mono s L hB0)
    have h6 := jsRound_mono (hslChanQ_mono s L hC0)
    omega
  have comp : ∀ (L E T : ℚ), E = hslChanQ s L T →
      ((jsRound E : ℤ) : ℚ) = ((jsRound (hslChanQ s L T) : ℤ) : ℚ) := by
    intro L E T hE
    rw [hE]
  by_cases hc1 : 0 ≤ jsMod (jsMod h 360 + 360) 360 ∧ jsMod (jsMod h 360 + 360) 360 < 60
  · refine ⟨1, tm, 0, ⟨by norm_num, le_rfl⟩, htm, ⟨le_rfl, by norm_num⟩, fun L => ?_⟩
    have hkey := key L 1 tm 0 (by norm_num) le_rfl htm.1 htm.2 le_rfl (by norm_num)
    refine ⟨?_, by omega, by omega⟩
    unfold hslToRGB
    dsimp only
    rw [if_pos hc1]
    dsimp only
    exact congr (congr (congrArg RGB.mk
        (comp L _ _ (by unfold hslChanQ; ring)))
      (comp L _ _ (by rw [htmdef]; unfold hslChanQ; ring)))
      (comp L _ _ (by unfold hslChanQ; ring))
  · by_cases hc2 : 60 ≤ jsMod (jsMod h 360 + 360) 360 ∧ jsMod (jsMod h 360 + 360) 360 < 120
    · refine ⟨tm, 1, 0, htm, ⟨by norm_num, le_rfl⟩, ⟨le_rfl, by norm_num⟩, fun L => ?_⟩
      have hkey := key L tm 1 0 htm.1 htm.2 (by norm_num) le_rfl le_rfl (by norm_num)
      refine ⟨?_, by omega, by omega⟩
      unfold hslToRGB
      dsimp only
      rw [if_neg hc1, if_pos hc2]
      dsimp only
      exact congr (congr (congrArg RGB.mk
          (comp L _ _ (by rw [htmdef]; unfold hslChanQ; ring)))
        (comp L _ _ (by unfold hslChanQ; ring)))
        (comp L _ _ (by unfold hslChanQ; ring))
    · by_cases hc3 : 120 ≤ jsMod (jsMod h 360 + 360) 360 ∧ jsMod (jsMod h 360 + 360) 360 < 180
      · refine ⟨0, 1, tm, ⟨le_rfl, by norm_num⟩, ⟨by norm_num, le_rfl⟩, htm, fun L => ?_⟩
        have hkey := key L 0 1 tm le_rfl (by norm_num) (by norm_num) le_rfl htm.1 htm.2
        refine ⟨?_, by omega, by omega⟩
        unfold hslToRGB
        dsimp only
        rw [if_neg hc1, if_neg hc2, if_pos hc3]
        dsimp only
        exact congr (congr (congrArg RGB.mk
            (comp L _ _ (by unfold hslChanQ; ring)))
          (comp L _ _ (by unfold hslChanQ; ring)))
          (comp L _ _ (by rw [htmdef]; unfold hslChanQ; ring))
      · by_cases hc4 : 180 ≤ jsMod (jsMod h 360 + 360) 360 ∧ jsMod (jsMod h 360 + 360) 360 < 240
        · refine ⟨0, tm, 1, ⟨le_rfl, by norm_num⟩, htm, ⟨by norm_num, le_rfl⟩, fun L => ?_⟩
          have hkey := key L 0 tm 1 le_rfl (by norm_num) htm.1 htm.2 (by norm_num) le_rfl
          refine ⟨?_, by omega, by omega⟩
          unfold hslToRGB
          dsimp only
          rw [if_neg hc1, if_neg hc2, if_neg hc3, if_pos hc4]
          dsimp only
          exact congr (congr (congrArg RGB.mk
              (comp L _ _ (by unfold hslChanQ; ring)))
            (comp L _ _ (by rw [htmdef]; unfold hslChanQ; ring)))
            (comp L _ _ (by unfold hslChanQ; ring))
        · by_cases hc5 : 240 ≤ jsMod (jsMod h 360 + 360) 360 ∧ jsMod (jsMod h 360 + 360) 360 < 300
          · refine ⟨tm, 0, 1, htm, ⟨le_rfl, by norm_num⟩, ⟨by norm_num, le_rfl⟩, fun L => ?_⟩
            have hkey := key L tm 0 1 htm.1 htm.2 le_rfl (by norm_num) (by norm_num) le_rfl
            refine ⟨?_, by omega, by omega⟩
            unfold hslToRGB
            dsimp only
            rw [if_neg hc1, if_neg hc2, if_neg hc3, if_neg hc4, if_pos hc5]
            dsimp only
            exact congr (congr (congrArg RGB.mk
                (comp L _ _ (by rw [htmdef]; unfold hslChanQ; ring)))
              (comp L _ _ (by unfold hslChanQ; ring)))
              (comp L _ _ (by unfold hslChanQ; ring))
          · refine ⟨1, 0, tm, ⟨by norm_num, le_rfl⟩, ⟨le_rfl, by norm_num⟩, htm, fun L => ?_⟩
            have hkey := key L 1 0 tm (by norm_num) le_rfl le_rfl (by norm_num) htm.1 htm.2
            refine ⟨?_, by omega, by omega⟩
            unfold hslToRGB
            dsimp only
            rw [if_neg hc1, if_neg hc2, if_neg hc3, if_neg hc4, if_neg hc5]
            dsimp only
            exact congr (congr (congrArg RGB.mk
                (comp L _ _ (by unfold hslChanQ; ring)))
              (comp L _ _ (by unfold hslChanQ; ring)))
              (comp L _ _ (by rw [htmdef]; unfold hslChanQ; ring))

lemma chanQ_close (s L1 L2 T : ℚ) (hT0 : 0 ≤ T) (hT1 : T ≤ 1)
    (hΔ : |max 0 (min 100 L2) / 100 - max 0 (min 100 L1) / 100| ≤ 1/510) :
    |((jsRound (hslChanQ s L2 T) : ℤ) : ℚ) - ((jsRound (hslChanQ s L1 T) : ℤ) : ℚ)| ≤ 1 := by
  obtain ⟨_, _, hs0, hs1, _, _, _⟩ := hsl_scalar_facts s L1
  unfold hslChanQ
  exact chan_close (max 0 (min 100 L1) / 100) (max 0 (min 100 L2) / 100)
    (max 0 (min 100 s) / 100) T hs0 hs1 hT0 hT1 hΔ

/-- Every output of `hslToRGB` has integer channels in `[0, 255]`. -/
lemma hslToRGB_int_channels (h s L : ℚ) : ∃ r g b : ℤ,
    (0 ≤ r ∧ r ≤ 255) ∧ (0 ≤ g ∧ g ≤ 255) ∧ (0 ≤ b ∧ b ≤ 255) ∧
    hslToRGB ⟨h, s, L⟩ = ⟨(r : ℚ), (g : ℚ), (b : ℚ)⟩ := by
  obtain ⟨T1, T2, T3, hT1, hT2, hT3, hform⟩ := hslToRGB_form h s
  obtain ⟨heq, -, -⟩ := hform L
  exact ⟨jsRound (hslChanQ s L T1), jsRound (hslChanQ s L T2), jsRound (hslChanQ s L T3),
    hslChanQ_round_bounds s L T1 hT1.1 hT1.2, hslChanQ_round_bounds s L T2 hT2.1 hT2.2,
    hslChanQ_round_bounds s L T3 hT3.1 hT3.2, heq⟩

/-- Hex serialization followed by parsing is the identity on `hslToRGB` outputs. -/
lemma hexToRGB_rgbToHex_hslToRGB (h s L : ℚ) :
    hexToRGB (rgbToHex (hslToRGB ⟨h, s, L⟩)) = hslToRGB ⟨h, s, L⟩ := by
  obtain ⟨r, g, b, hr, hg, hb, heq⟩ := hslToRGB_int_channels h s L
  rw [heq]
  exact hexToRGB_rgbToHex r g b hr.1 hr.2 hg.1 hg.2 hb.1 hb.2

set_option maxHeartbeats 1000000 in
/-- Core round-trip bound: re-inverting at the measured HSL lightness moves
every channel of `hslToRGB` by at most one 8-bit unit. -/
lemma hsl_roundtrip_channels (h s L : ℚ) :
    |(hslToRGB ⟨h, s, (rgbToHSL (hslToRGB ⟨h, s, L⟩)).l⟩).r - (hslToRGB ⟨h, s, L⟩).r| ≤ 1 ∧
    |(hslToRGB ⟨h, s, (rgbToHSL (hslToRGB ⟨h, s, L⟩)).l⟩).g - (hslToRGB ⟨h, s, L⟩).g| ≤ 1 ∧
    |(hslToRGB ⟨h, s, (rgbToHSL (hslToRGB ⟨h, s, L⟩)).l⟩).b - (hslToRGB ⟨h, s, L⟩).b| ≤ 1 := by
  obtain ⟨T1, T2, T3, hT1, hT2, hT3, hform⟩ := hslToRGB_form h s
  obtain ⟨heq1, hmax1, hmin1⟩ := hform L
  have hb1 := hslChanQ_round_bounds s L T1 hT1.1 hT1.2
  have hb2 := hslChanQ_round_bounds s L T2 hT2.1 hT2.2
  have hb3 := hslChanQ_round_bounds s L T3 hT3.1 hT3.2
  have hN := hslChanQ_round_bounds s L 1 (by norm_num) le_rfl
  have hK := hslChanQ_round_bounds s L 0 le_rfl (by norm_num)
  have hNq : (0 : ℚ) ≤ ((jsRound (hslChanQ s L 1) : ℤ) : ℚ) ∧
      ((jsRound (hslChanQ s L 1) : ℤ) : ℚ) ≤ 255 :=
    ⟨by exact_mod_cast hN.1, by exact_mod_cast hN.2⟩
  have hKq : (0 : ℚ) ≤ ((jsRound (hslChanQ s L 0) : ℤ) : ℚ) ∧
      ((jsRound (hslChanQ s L 0) : ℤ) : ℚ) ≤ 255 :=
    ⟨by exact_mod_cast hK.1, by exact_mod_cast hK.2⟩
  have hL2 : (rgbToHSL (hslToRGB ⟨h, s, L⟩)).l =
      (((jsRound (hslChanQ s L 1) : ℤ) : ℚ) / 255 +
       ((jsRound (hslChanQ s L 0) : ℤ) : ℚ) / 255) / 2 * 100 := by
    rw [heq1, rgbToHSL_l_of_int _ _ _ hb1 hb2 hb3, hmax1, hmin1]
  have hsum : hslChanQ s L 1 + hslChanQ s L 0 = 510 * (max 0 (min 100 L) / 100) := by
    unfold hslChanQ
    ring
  have hL2b : (0 : ℚ) ≤ (((jsRound (hslChanQ s L 1) : ℤ) : ℚ) / 255 +
       ((jsRound (hslChanQ s L 0) : ℤ) : ℚ) / 255) / 2 * 100 ∧
      (((jsRound (hslChanQ s L 1) : ℤ) : ℚ) / 255 +
       ((jsRound (hslChanQ s L 0) : ℤ) : ℚ) / 255) / 2 * 100 ≤ 100 := by
    constructor
    · have := hNq.1
      have := hKq.1
      positivity
    · linarith [hNq.2, hKq.2]
  have hclamp : max 0 (min 100 ((((jsRound (hslChanQ s L 1) : ℤ) : ℚ) / 255 +
       ((jsRound (hslChanQ s L 0) : ℤ) : ℚ) / 255) / 2 * 100)) =
      (((jsRound (hslChanQ s L 1) : ℤ) : ℚ) / 255 +
       ((jsRound (hslChanQ s L 0) : ℤ) : ℚ) / 255) / 2 * 100 := by
    rw [min_eq_right hL2b.2, max_eq_right hL2b.1]
  have hNa := abs_le.mp (jsRound_abs_err (hslChanQ s L 1))
  have hKa := abs_le.mp (jsRound_abs_err (hslChanQ s L 0))
  have hΔ : |max 0 (min 100 ((((jsRound (hslChanQ s L 1) : ℤ) : ℚ) / 255 +
       ((jsRound (hslChanQ s L 0) : ℤ) : ℚ) / 255) / 2 * 100)) / 100 -
      max 0 (min 100 L) / 100| ≤ 1/510 := by
    rw [hclamp]
    have h2 : (((jsRound (hslChanQ s L 1) : ℤ) : ℚ) / 255 +
        ((jsRound (hslChanQ s L 0) : ℤ) : ℚ) / 255) / 2 * 100 / 100 -
        max 0 (min 100 L) / 100 =
        ((((jsRound (hslChanQ s L 1) : ℤ) : ℚ) - hslChanQ s L 1) +
         (((jsRound (hslChanQ s L 0) : ℤ) : ℚ) - hslChanQ s L 0)) / 510 := by
      rw [eq_div_iff (by norm_num : (510 : ℚ) ≠ 0)]
      have h510 : (510 : ℚ) * (max 0 (min 100 L) / 100) =
          hslChanQ s L 1 + hslChanQ s L 0 := hsum.symm
      nlinarith [h510]
    rw [h2, abs_le]
    constructor
    · linarith [hNa.1, hKa.1]
    · linarith [hNa.2, hKa.2]
  obtain ⟨heq2, -, -⟩ := hform ((((jsRound (hslChanQ s L 1) : ℤ) : ℚ) / 255 +
       ((jsRound (hslChanQ s L 0) : ℤ) : ℚ) / 255) / 2 * 100)
  rw [hL2, heq1, heq2]
  dsimp only
  exact ⟨chanQ_close s L _ T1 hT1.1 hT1.2 hΔ, chanQ_close s L _ T2 hT2.1 hT2.2 hΔ,
    chanQ_close s L _ T3 hT3.1 hT3.2 hΔ⟩

/-- C3: For every hue, saturation and lightness, inverting with method `hsl`,
measuring the result's HSL lightness and inverting again reproduces each
8-bit channel within ±1; the spec's claim of an identical color (zero error)
fails because the measured lightness is quantized by channel rounding. -/
theorem C3_hsl_roundtrip_within_one (powF : ℚ → ℚ → ℚ) (h s L : ℚ) :
    |(hexToRGB (adjustToLightness powF (JsNum.num h) s
        (getLightness powF (adjustToLightness powF (JsNum.num h) s L .hsl) .hsl) .hsl)).r -
      (hexToRGB (adjustToLightness powF (JsNum.num h) s L .hsl)).r| ≤ 1 ∧
    |(hexToRGB (adjustToLightness powF (JsNum.num h) s
        (getLightness powF (adjustToLightness powF (JsNum.num h) s L .hsl) .hsl) .hsl)).g -
      (hexToRGB (adjustToLightness powF (JsNum.num h) s L .hsl)).g| ≤ 1 ∧
    |(hexToRGB (adjustToLightness powF (JsNum.num h) s
        (getLightness powF (adjustToLightness powF (JsNum.num h) s L .hsl) .hsl) .hsl)).b -
      (hexToRGB (adjustToLightness powF (JsNum.num h) s L .hsl)).b| ≤ 1 := by
  unfold adjustToLightness adjustToHSLLightness getLightness getHSLLightness
  dsimp only
  simp only [hexToRGB_rgbToHex_hslToRGB]
  exact hsl_roundtrip_channels _ _ L

/-- C3 counterexample: at hue 54, saturation 100 and lightness 335/17 the
`hsl` round trip does not reproduce the identical color — the green channel
moves from 90 to 91 (hex `#655a00` vs `#655b00`). -/
theorem C3_hsl_roundtrip_counterexample :
    adjustToLightness (fun _ _ => 0) (JsNum.num 54) 100
        (getLightness (fun _ _ => 0)
          (adjustToLightness (fun _ _ => 0) (JsNum.num 54) 100 (335/17) .hsl) .hsl) .hsl ≠
      adjustToLightness (fun _ _ => 0) (JsNum.num 54) 100 (335/17) .hsl := by
  have e1 : jsMod (jsMod (54:ℚ) 360 + 360) 360 = 54 := by
    unfold jsMod jsTrunc
    norm_num
  have e2 : jsMod ((54:ℚ) / 60) 2 = 9/10 := by
    unfold jsMod jsTrunc
    norm_num
  have e4 : max (0:ℚ) (min 100 100) = 100 := by norm_num
  have hrgb1 : hslToRGB ⟨54, 100, 335/17⟩ =
      ⟨((101 : ℤ) : ℚ), ((90 : ℤ) : ℚ), ((0 : ℤ) : ℚ)⟩ := by
    unfold hslToRGB
    dsimp only
    rw [e1, e2]
    rw [if_pos (show (0:ℚ) ≤ 54 ∧ (54:ℚ) < 60 by norm_num)]
    dsimp only
    simp only [RGB.mk.injEq]
    norm_num [jsRound, max_def, min_def, abs_of_nonneg]
  have hL2 : (rgbToHSL ⟨((101 : ℤ) : ℚ), ((90 : ℤ) : ℚ), ((0 : ℤ) : ℚ)⟩).l = 1010/51 := by
    rw [rgbToHSL_l_of_int 101 90 0 (by norm_num) (by norm_num) (by norm_num)]
    norm_num [max_def, min_def]
  have hrgb2 : hslToRGB ⟨54, 100, 1010/51⟩ =
      ⟨((101 : ℤ) : ℚ), ((91 : ℤ) : ℚ), ((0 : ℤ) : ℚ)⟩ := by
    unfold hslToRGB
    dsimp only
    rw [e1, e2]
    rw [if_pos (show (0:ℚ) ≤ 54 ∧ (54:ℚ) < 60 by norm_num)]
    dsimp only
    simp only [RGB.mk.injEq]
    norm_num [jsRound, max_def, min_def, abs_of_nonneg]
  unfold adjustToLightness adjustToHSLLightness getLightness getHSLLightness
  dsimp only
  rw [e1, e4]
  rw [hexToRGB_rgbToHex_hslToRGB]
  rw [hrgb1, hL2, hrgb2]
  rw [rgbToHex_intCast 101 91 0 (by norm_num) (by norm_num) (by norm_num) (by norm_num)
    (by norm_num) (by norm_num),
    rgbToHex_intCast 101 90 0 (by norm_num) (by norm_num) (by norm_num) (by norm_num)
    (by norm_num) (by norm_num)]
  decide

/-! ## Palette structure (claims C1, C8, C10) -/

/-- Left-cancellation for string concatenation. -/
lemma string_append_left_cancel {a b c : String} (h : a ++ b = a ++ c) : b = c := by
  have hd := congrArg String.data h
  simp only [String.data_append] at hd
  exact String.ext (List.append_cancel_left hd)

/-- Two palette keys over the same prefix agree only if the suffixes agree. -/
lemma key_ne2 (P : String) {X Y : String} (h : ¬ X = Y) :
    ¬ ("--" ++ (P ++ X) = "--" ++ (P ++ Y)) := fun hc =>
  h (string_append_left_cancel (string_append_left_cancel hc))

lemma toString_level_inj : ∀ l ∈ SCALE_LEVELS, ∀ l' ∈ SCALE_LEVELS,
    toString l = toString l' → l = l' := by decide

lemma nodup_levels : SCALE_LEVELS.Nodup := by decide

lemma suffix_facts1 : ∀ l ∈ SCALE_LEVELS,
    ("-" ++ toString l ≠ "-color") ∧ ("-" ++ toString l ≠ "-" ++ "lighter") ∧
    ("-" ++ toString l ≠ "-" ++ "light") ∧ ("-" ++ toString l ≠ "-" ++ "dark") ∧
    ("-" ++ toString l ≠ "-" ++ "darker") ∧ ("-" ++ toString l ≠ "-text-color") ∧
    ("-" ++ toString l ≠ "-text-color-on-light") ∧
    ("-" ++ toString l ≠ "-text-color-on-dark") := by decide

lemma suffix_facts2 : ∀ l ∈ SCALE_LEVELS, ∀ l' ∈ SCALE_LEVELS,
    ("-" ++ toString l ≠ "-" ++ (toString l' ++ "-transparent")) ∧
    (("-" ++ (toString l ++ "-transparent") = "-" ++ (toString l' ++ "-transparent")) → l = l') := by
  decide

lemma suffix_facts3 : ∀ l ∈ SCALE_LEVELS,
    ("-text-color" ≠ "-" ++ (toString l ++ "-transparent")) ∧
    ("-text-color-on-light" ≠ "-" ++ (toString l ++ "-transparent")) ∧
    ("-text-color-on-dark" ≠ "-" ++ (toString l ++ "-transparent")) := by decide

lemma suffix_facts4 :
    ("-text-color-on-light" ≠ "-color") ∧ ("-text-color-on-light" ≠ "-" ++ "lighter") ∧
    ("-text-color-on-light" ≠ "-" ++ "light") ∧ ("-text-color-on-light" ≠ "-" ++ "dark") ∧
    ("-text-color-on-light" ≠ "-" ++ "darker") ∧ ("-text-color-on-light" ≠ "-text-color") ∧
    ("-text-color-on-dark" ≠ "-color") ∧ ("-text-color-on-dark" ≠ "-" ++ "lighter") ∧
    ("-text-color-on-dark" ≠ "-" ++ "light") ∧ ("-text-color-on-dark" ≠ "-" ++ "dark") ∧
    ("-text-color-on-dark" ≠ "-" ++ "darker") ∧ ("-text-color-on-dark" ≠ "-text-color") := by decide

example (P : String) (l l' : ℤ) (hl : l ∈ SCALE_LEVELS) (hl' : l' ∈ SCALE_LEVELS)
    (hne : l ≠ l') :
    ¬ ("--" ++ P ++ "-" ++ toString l = "--" ++ P ++ "-" ++ toString l') := by
  simp only [String.append_assoc]
  exact key_ne2 P (fun hx => hne (toString_level_inj l hl l' hl'
    (string_append_left_cancel hx)))

lemma paletteGet_set_eq (p : Palette) (k v : String) :
    paletteGet (paletteSet p k v) k = some v := by
  simp [paletteGet, paletteSet, List.find?]

lemma paletteGet_set_ne (p : Palette) (k' v k : String) (h : k' ≠ k) :
    paletteGet (paletteSet p k' v) k = paletteGet p k := by
  simp only [paletteGet, paletteSet, List.find?]
  rw [show (((k', v).1 == k) : Bool) = false from beq_eq_false_iff_ne.mpr h]

lemma paletteGet_foldl_preserve {α : Type} (f : Palette → α → Palette) (l : List α)
    (k : String) (hf : ∀ p a, a ∈ l → paletteGet (f p a) k = paletteGet p k) :
    ∀ p, paletteGet (l.foldl f p) k = paletteGet p k := by
  induction l with
  | nil => intro p; rfl
  | cons a t ih =>
    intro p
    rw [List.foldl_cons, ih (fun p' a' ha' => hf p' a' (List.mem_cons_of_mem _ ha')),
      hf p a (List.mem_cons_self _ _)]

lemma foldl_mem_of_mem {α : Type} (g : α → α → α) (hg : ∀ c x, g c x = c ∨ g c x = x)
    (S : List α) : ∀ (l : List α), (∀ x ∈ l, x ∈ S) → ∀ a, a ∈ S → l.foldl g a ∈ S := by
  intro l
  induction l with
  | nil => intro _ a ha; exact ha
  | cons x t ih =>
    intro hl a ha
    rw [List.foldl_cons]
    refine ih (fun y hy => hl y (List.mem_cons_of_mem _ hy)) _ ?_
    rcases hg a x with h | h <;> rw [h]
    · exact ha
    · exact hl x (List.mem_cons_self _ _)

lemma findClosestLevel_mem (q : ℚ) (m : LightnessMethod) :
    findClosestLevel q m ∈ SCALE_LEVELS := by
  unfold findClosestLevel
  refine foldl_mem_of_mem _ ?_ SCALE_LEVELS _ (by decide) _ (by decide)
  intro c x
  dsimp only
  split <;> split <;> first | (right; rfl) | (left; rfl)

lemma foldl_opt_mem (S : List ℤ) (f : Option ℤ → ℤ → Option ℤ)
    (hf : ∀ acc x, f acc x = acc ∨ f acc x = some x) :
    ∀ (l : List ℤ), (∀ x ∈ l, x ∈ S) → ∀ acc, (acc = none ∨ ∃ y ∈ S, acc = some y) →
    (l.foldl f acc = none ∨ ∃ y ∈ S, l.foldl f acc = some y) := by
  intro l
  induction l with
  | nil => intro _ acc ha; exact ha
  | cons x t ih =>
    intro hl acc ha
    rw [List.foldl_cons]
    refine ih (fun y hy => hl y (List.mem_cons_of_mem _ hy)) _ ?_
    rcases hf acc x with h | h <;> rw [h]
    · exact ha
    · exact Or.inr ⟨x, hl x (List.mem_cons_self _ _), rfl⟩

lemma writer_fold_get_eq (key : ℤ → String) (V0 : String) (cl : ℤ)
    (body : Palette → (ℤ × ℚ) → Palette)
    (hb : ∀ p e, ∃ v, body p e = paletteSet p (key e.1) v ∧ (e.1 = cl → v = V0))
    (hkeyne : ∀ l, l ∈ SCALE_LEVELS → l ≠ cl → key l ≠ key cl) :
    ∀ (s : ScaleRecord) (p : Palette), cl ∈ s.map Prod.fst →
      (∀ l ∈ s.map Prod.fst, l ∈ SCALE_LEVELS) → (s.map Prod.fst).Nodup →
      paletteGet (s.foldl body p) (key cl) = some V0 := by
  intro s
  induction s with
  | nil => intro p hmem; cases hmem
  | cons e t ih =>
    intro p hmem hsub hnd
    simp only [List.map_cons, List.nodup_cons, List.mem_cons] at hmem hsub hnd
    rw [List.foldl_cons]
    obtain ⟨v, hv, hvc⟩ := hb p e
    by_cases he : e.1 = cl
    · have hncl : cl ∉ t.map Prod.fst := he ▸ hnd.1
      have hpres := paletteGet_foldl_preserve body t (key cl) (fun p' a ha => by
        obtain ⟨v', hv', -⟩ := hb p' a
        rw [hv']
        refine paletteGet_set_ne _ _ _ _ ?_
        refine hkeyne a.1 (hsub a.1 (Or.inr (List.mem_map_of_mem _ ha))) ?_
        intro hc
        exact hncl (hc ▸ List.mem_map_of_mem _ ha))
      rw [hpres, hv, he, paletteGet_set_eq, hvc he]
    · have hmem' : cl ∈ t.map Prod.fst := by
        rcases hmem with h | h
        · exact absurd h.symm he
        · exact h
      exact ih _ hmem' (fun l hl => hsub l (Or.inr hl)) hnd.2

lemma writer_fold_get_mem (key : ℤ → String) (P : String → Prop)
    (body : Palette → (ℤ × ℚ) → Palette)
    (hb : ∀ p e, ∃ v, body p e = paletteSet p (key e.1) v ∧ P v)
    (hkey_inj : ∀ l ∈ SCALE_LEVELS, ∀ l' ∈ SCALE_LEVELS, key l = key l' → l = l')
    (lvl : ℤ) :
    ∀ (s : ScaleRecord) (p : Palette), lvl ∈ s.map Prod.fst →
      (∀ l ∈ s.map Prod.fst, l ∈ SCALE_LEVELS) → (s.map Prod.fst).Nodup →
      ∃ v, paletteGet (s.foldl body p) (key lvl) = some v ∧ P v := by
  intro s
  induction s with
  | nil => intro p hmem; cases hmem
  | cons e t ih =>
    intro p hmem hsub hnd
    simp only [List.map_cons, List.nodup_cons, List.mem_cons] at hmem hsub hnd
    rw [List.foldl_cons]
    obtain ⟨v, hv, hvP⟩ := hb p e
    by_cases he : e.1 = lvl
    · have hncl : lvl ∉ t.map Prod.fst := he ▸ hnd.1
      have hpres := paletteGet_foldl_preserve body t (key lvl) (fun p' a ha => by
        obtain ⟨v', hv', -⟩ := hb p' a
        rw [hv']
        refine paletteGet_set_ne _ _ _ _ ?_
        intro hc
        have := hkey_inj a.1 (hsub a.1 (Or.inr (List.mem_map_of_mem _ ha))) lvl
          (he ▸ hsub e.1 (Or.inl rfl)) hc
        exact hncl (this ▸ List.mem_map_of_mem _ ha))
      refine ⟨v, ?_, hvP⟩
      rw [hpres, hv, he, paletteGet_set_eq]
    · have hmem' : lvl ∈ t.map Prod.fst := by
        rcases hmem with h | h
        · exact absurd h.symm he
        · exact h
      exact ih _ hmem' (fun l hl => hsub l (Or.inr hl)) hnd.2

lemma writer_fold_preserve (key : ℤ → String)
    (body : Palette → (ℤ × ℚ) → Palette)
    (hb : ∀ p e, ∃ v, body p e = paletteSet p (key e.1) v)
    (k : String) (s : ScaleRecord) (hk : ∀ l ∈ s.map Prod.fst, key l ≠ k) (p : Palette) :
    paletteGet (s.foldl body p) k = paletteGet p k := by
  refine paletteGet_foldl_preserve body s k (fun p' a ha => ?_) p
  obtain ⟨v, hv⟩ := hb p' a
  rw [hv]
  exact paletteGet_set_ne _ _ _ _ (hk a.1 (List.mem_map_of_mem _ ha))

/-- `adjustToLightness` always returns the hex form of an `hslToRGB` output. -/
lemma adjustToLightness_form (powF : ℚ → ℚ → ℚ) (h : JsNum) (s t : ℚ)
    (m : LightnessMethod) : ∃ hh ss ll,
    adjustToLightness powF h s t m = rgbToHex (hslToRGB ⟨hh, ss, ll⟩) := by
  unfold adjustToLightness adjustToHSLLightness adjustToLightnessByBinarySearch
  dsimp only
  cases m <;> exact ⟨_, _, _, rfl⟩

lemma genOriginalPalette_anchor (powF : ℚ → ℚ → ℚ) (cosF : ℚ → ℚ)
    (cfg : RequiredColorConfig) (inputHSL : HSL) (cl : ℤ) (scale : ScaleRecord)
    (hmem : cl ∈ scale.map Prod.fst)
    (hsub : ∀ l ∈ scale.map Prod.fst, l ∈ SCALE_LEVELS)
    (hnd : (scale.map Prod.fst).Nodup) (hcl : cl ∈ SCALE_LEVELS) :
    paletteGet (generateOriginalPalette powF cosF cfg inputHSL cl scale)
      ("--" ++ cfg.varPrefix ++ "-" ++ toString cl) = some cfg.color := by
  unfold generateOriginalPalette
  dsimp only
  refine writer_fold_get_eq (fun l => "--" ++ cfg.varPrefix ++ "-" ++ toString l)
    cfg.color cl _ (fun p e => ?_) (fun l hl hlne => ?_) scale [] hmem hsub hnd
  · dsimp only
    split_ifs with h
    · exact ⟨cfg.color, rfl, fun _ => rfl⟩
    · exact ⟨_, rfl, fun hc => absurd hc h⟩
  · simp only [String.append_assoc]
    exact key_ne2 cfg.varPrefix (fun hx =>
      hlne (toString_level_inj l hl cl hcl (string_append_left_cancel hx)))

lemma genOriginalPalette_get_mem (powF : ℚ → ℚ → ℚ) (cosF : ℚ → ℚ)
    (cfg : RequiredColorConfig) (inputHSL : HSL) (cl : ℤ) (scale : ScaleRecord)
    (lvl : ℤ) (hmem : lvl ∈ scale.map Prod.fst)
    (hsub : ∀ l ∈ scale.map Prod.fst, l ∈ SCALE_LEVELS)
    (hnd : (scale.map Prod.fst).Nodup) :
    ∃ v, paletteGet (generateOriginalPalette powF cosF cfg inputHSL cl scale)
        ("--" ++ cfg.varPrefix ++ "-" ++ toString lvl) = some v ∧
      (v = cfg.color ∨ ∃ hh ss ll, v = rgbToHex (hslToRGB ⟨hh, ss, ll⟩)) := by
  unfold generateOriginalPalette
  dsimp only
  refine writer_fold_get_mem (fun l => "--" ++ cfg.varPrefix ++ "-" ++ toString l)
    (fun v => v = cfg.color ∨ ∃ hh ss ll, v = rgbToHex (hslToRGB ⟨hh, ss, ll⟩))
    _ (fun p e => ?_) (fun l hl l' hl' hx => ?_) lvl scale [] hmem hsub hnd
  · dsimp only
    split_ifs with h
    · exact ⟨cfg.color, rfl, Or.inl rfl⟩
    · exact ⟨_, rfl, Or.inr (adjustToLightness_form powF _ _ _ _)⟩
  · exact toString_level_inj l hl l' hl'
      (string_append_left_cancel (string_append_left_cancel (string_append_left_cancel
        (by simpa only [String.append_assoc] using hx))))

lemma genOriginalPalette_preserve (powF : ℚ → ℚ → ℚ) (cosF : ℚ → ℚ)
    (cfg : RequiredColorConfig) (inputHSL : HSL) (cl : ℤ) (scale : ScaleRecord)
    (hsub : ∀ l ∈ scale.map Prod.fst, l ∈ SCALE_LEVELS)
    (k : String)
    (hk : ∀ l ∈ SCALE_LEVELS, ("--" ++ cfg.varPrefix ++ "-" ++ toString l) ≠ k) :
    paletteGet (generateOriginalPalette powF cosF cfg inputHSL cl scale) k = none := by
  unfold generateOriginalPalette
  dsimp only
  rw [writer_fold_preserve (fun l => "--" ++ cfg.varPrefix ++ "-" ++ toString l)
    _ (fun p e => ?_) k scale (fun l hl => hk l (hsub l hl)) []]
  · rfl
  · dsimp only
    split_ifs
    · exact ⟨cfg.color, rfl⟩
    · exact ⟨_, rfl⟩

lemma setVariationColors_get_ne (cfg : RequiredColorConfig) (cl : ℤ) (p : Palette)
    (k : String)
    (h1 : ("--" ++ cfg.varPrefix ++ "-color") ≠ k)
    (h2 : ("--" ++ cfg.varPrefix ++ "-" ++ "lighter") ≠ k)
    (h3 : ("--" ++ cfg.varPrefix ++ "-" ++ "light") ≠ k)
    (h4 : ("--" ++ cfg.varPrefix ++ "-" ++ "dark") ≠ k)
    (h5 : ("--" ++ cfg.varPrefix ++ "-" ++ "darker") ≠ k) :
    paletteGet (setVariationColors cfg cl p) k = paletteGet p k := by
  unfold setVariationColors
  dsimp only
  rw [List.foldl_cons, List.foldl_cons, List.foldl_cons, List.foldl_cons, List.foldl_nil]
  dsimp only
  rw [paletteGet_set_ne _ _ _ _ h5, paletteGet_set_ne _ _ _ _ h4,
    paletteGet_set_ne _ _ _ _ h3, paletteGet_set_ne _ _ _ _ h2,
    paletteGet_set_ne _ _ _ _ h1]

lemma setTextColor_eq_set (powF : ℚ → ℚ → ℚ) (cfg : RequiredColorConfig)
    (c : String) (p : Palette) : ∃ lvl : ℤ,
    setTextColor powF cfg c p =
      paletteSet p ("--" ++ cfg.varPrefix ++ "-text-color")
        ("var(--" ++ cfg.varPrefix ++ "-" ++ toString lvl ++ ")") := by
  unfold setTextColor
  dsimp only
  split
  · split_ifs
    · exact ⟨_, rfl⟩
    · exact ⟨_, rfl⟩
  · exact ⟨_, rfl⟩

lemma setTextColor_get_ne (powF : ℚ → ℚ → ℚ) (cfg : RequiredColorConfig)
    (c : String) (p : Palette) (k : String)
    (h : ("--" ++ cfg.varPrefix ++ "-text-color") ≠ k) :
    paletteGet (setTextColor powF cfg c p) k = paletteGet p k := by
  obtain ⟨lvl, heq⟩ := setTextColor_eq_set powF cfg c p
  rw [heq]
  exact paletteGet_set_ne _ _ _ _ h


lemma setTextColor_get_self (powF : ℚ → ℚ → ℚ) (cfg : RequiredColorConfig)
    (c : String) (p : Palette) : ∃ lvl : ℤ,
    paletteGet (setTextColor powF cfg c p) ("--" ++ cfg.varPrefix ++ "-text-color") =
      some ("var(--" ++ cfg.varPrefix ++ "-" ++ toString lvl ++ ")") := by
  obtain ⟨lvl, heq⟩ := setTextColor_eq_set powF cfg c p
  exact ⟨lvl, by rw [heq, paletteGet_set_eq]⟩

/-- Every `rgbToHex` output equals the hex form of an integer-channel color in
range, and parsing it back recovers those channels. -/
lemma rgbToHex_form (rgb : RGB) : ∃ r g b : ℤ,
    (0 ≤ r ∧ r ≤ 255) ∧ (0 ≤ g ∧ g ≤ 255) ∧ (0 ≤ b ∧ b ≤ 255) ∧
    rgbToHex rgb = rgbToHex ⟨(r : ℚ), (g : ℚ), (b : ℚ)⟩ ∧
    hexToRGB (rgbToHex rgb) = ⟨(r : ℚ), (g : ℚ), (b : ℚ)⟩ := by
  have heq : rgbToHex rgb = rgbToHex ⟨((max 0 (min 255 (jsRound rgb.r)) : ℤ) : ℚ),
      ((max 0 (min 255 (jsRound rgb.g)) : ℤ) : ℚ),
      ((max 0 (min 255 (jsRound rgb.b)) : ℤ) : ℚ)⟩ := by
    rw [rgbToHex_intCast _ _ _ (by omega) (by omega) (by omega) (by omega) (by omega)
      (by omega)]
    unfold rgbToHex
    rfl
  refine ⟨max 0 (min 255 (jsRound rgb.r)), max 0 (min 255 (jsRound rgb.g)),
    max 0 (min 255 (jsRound rgb.b)), ⟨by omega, by omega⟩, ⟨by omega, by omega⟩,
    ⟨by omega, by omega⟩, heq, ?_⟩
  rw [heq]
  exact hexToRGB_rgbToHex _ _ _ (by omega) (by omega) (by omega) (by omega) (by omega)
    (by omega)

/-- `rgbToHex` outputs are whitespace-free, nonempty and not `"undefined"`. -/
lemma rgbToHex_clean (rgb : RGB) :
    jsTrim (rgbToHex rgb) = rgbToHex rgb ∧ rgbToHex rgb ≠ "" ∧
    rgbToHex rgb ≠ "undefined" := by
  unfold rgbToHex
  dsimp only
  refine ⟨jsTrim_all_nonws _ ?_, ?_, ?_⟩
  · intro c hc
    rcases List.mem_cons.mp hc with rfl | hc
    · rfl
    · rcases List.mem_append.mp hc with hc | hc
      · rcases List.mem_append.mp hc with hc | hc <;> exact mem_byteToHex hc
      · exact mem_byteToHex hc
  · intro h
    have hd := congrArg String.data h
    simp [byteToHex] at hd
  · intro h
    have hd := congrArg String.data h
    rw [show ("undefined" : String).data = ['u','n','d','e','f','i','n','e','d'] from rfl]
      at hd
    simp [byteToHex] at hd

lemma getAlphaForLevel_self (a : ℤ) : getAlphaForLevel a a = 1 := by
  unfold getAlphaForLevel
  rw [if_pos rfl]
  rfl

lemma clampRGBValue_intCast (z : ℤ) (h0 : 0 ≤ z) (h1 : z ≤ 255) :
    clampRGBValue ((z : ℤ) : ℚ) = z := by
  unfold clampRGBValue
  rw [jsRound_intCast, min_eq_right h1, max_eq_right h0]

lemma toFixed3_one : toFixed3 1 = "1.000" := by
  unfold toFixed3
  rw [show (1 : ℚ) * 1000 = ((1000 : ℤ) : ℚ) by norm_num, jsRound_intCast]
  decide

/-- At alpha 1 the compositing inversion returns the target's channels
verbatim, whatever the background string is. -/
lemma calcTransparent_alpha_one (r g b : ℤ) (hr0 : 0 ≤ r) (hr1 : r ≤ 255)
    (hg0 : 0 ≤ g) (hg1 : g ≤ 255) (hb0 : 0 ≤ b) (hb1 : b ≤ 255) (bg : String) :
    calculateTransparentColor (rgbToHex ⟨(r : ℚ), (g : ℚ), (b : ℚ)⟩) bg 1 =
      "rgba(" ++ toString r ++ ", " ++ toString g ++ ", " ++ toString b ++
        ", 1.000)" := by
  unfold calculateTransparentColor
  rw [hexToRGB_rgbToHex r g b hr0 hr1 hg0 hg1 hb0 hb1]
  rw [if_neg (by norm_num : ¬ (1 : ℚ) = 0)]
  dsimp only
  rw [show ((r : ℚ) - (hexToRGB bg).r * (1 - 1)) / 1 = ((r : ℤ) : ℚ) from by ring,
    show ((g : ℚ) - (hexToRGB bg).g * (1 - 1)) / 1 = ((g : ℤ) : ℚ) from by ring,
    show ((b : ℚ) - (hexToRGB bg).b * (1 - 1)) / 1 = ((b : ℤ) : ℚ) from by ring,
    clampRGBValue_intCast r hr0 hr1, clampRGBValue_intCast g hg0 hg1,
    clampRGBValue_intCast b hb0 hb1, toFixed3_one]
  simp only [String.append_assoc]
  rw [show (", " : String) ++ ("1.000" ++ ")") = ", 1.000)" from rfl]

lemma bgOption_ne_empty (o : Option String) (d : String) (hd : d ≠ "") :
    (match o with | some s => if s = "" then d else s | none => d) ≠ "" := by
  cases o with
  | none => exact hd
  | some s =>
    dsimp only
    split_ifs with h
    · exact hd
    · exact h

lemma transparent_fold_get (body : Palette → ℤ → Palette) (origin : ℤ)
    (kS kT : String) (solid V : String)
    (hother : ∀ p l, l ∈ SCALE_LEVELS → l ≠ origin →
      paletteGet (body p l) kT = paletteGet p kT ∧
      paletteGet (body p l) kS = paletteGet p kS)
    (horig : ∀ p, paletteGet p kS = some solid →
      paletteGet (body p origin) kT = some V) :
    ∀ (ls : List ℤ) (p : Palette), origin ∈ ls → ls.Nodup →
      (∀ x ∈ ls, x ∈ SCALE_LEVELS) → paletteGet p kS = some solid →
      paletteGet (ls.foldl body p) kT = some V := by
  intro ls
  induction ls with
  | nil => intro p h; cases h
  | cons l t ih =>
    intro p hmem hnd hsub hsolid
    rw [List.foldl_cons]
    rcases List.mem_cons.mp hmem with rfl | hmem'
    · have hnot : origin ∉ t := (List.nodup_cons.mp hnd).1
      rw [paletteGet_foldl_preserve body t kT (fun p' a ha => (hother p' a
        (hsub a (List.mem_cons_of_mem _ ha)) (fun hc => hnot (hc ▸ ha))).1) _,
        horig p hsolid]
    · have hl : l ≠ origin := fun hc => (List.nodup_cons.mp hnd).1 (hc ▸ hmem')
      have hstep := hother p l (hsub l (List.mem_cons_self _ _)) hl
      refine ih _ hmem' (List.nodup_cons.mp hnd).2
        (fun x hx => hsub x (List.mem_cons_of_mem _ hx)) ?_
      rw [hstep.2]
      exact hsolid

lemma setTransparentPalette_get_ne (cfg : RequiredColorConfig) (p : Palette)
    (k : String)
    (hk : ∀ l ∈ SCALE_LEVELS,
      ("--" ++ cfg.varPrefix ++ "-" ++ toString l ++ "-transparent") ≠ k) :
    paletteGet (setTransparentPalette cfg p) k = paletteGet p k := by
  unfold setTransparentPalette
  split
  · rfl
  · refine paletteGet_foldl_preserve _ SCALE_LEVELS k ?_ p
    intro p' l hl
    dsimp only
    split
    · rfl
    · split_ifs <;> first | rfl | exact paletteGet_set_ne _ _ _ _ (hk l hl)

/-- C1: Anchor invariance — for every config, the generated palette emits, at
the level closest to the seed's measured lightness, exactly the seed color's
normalized lowercase hex form (`rgbToHex (hexToRGB color)`), verbatim. -/
theorem C1_anchor_invariance (powF : ℚ → ℚ → ℚ) (cosF : ℚ → ℚ) (cfg : ColorConfig) :
    paletteGet (generateColorPalette powF cosF cfg)
      ("--" ++ cfg.varPrefix ++ "-" ++ toString (findClosestLevel
        (getLightness powF (rgbToHex (hexToRGB cfg.color))
          (cfg.lightnessMethod.getD LightnessMethod.hybrid))
        (cfg.lightnessMethod.getD LightnessMethod.hybrid))) =
      some (rgbToHex (hexToRGB cfg.color)) := by
  unfold generateColorPalette
  dsimp only
  set q := getLightness powF (rgbToHex (hexToRGB cfg.color))
    (cfg.lightnessMethod.getD LightnessMethod.hybrid) with hq
  set cl := findClosestLevel q (cfg.lightnessMethod.getD LightnessMethod.hybrid) with hcldef
  have hcl : cl ∈ SCALE_LEVELS := findClosestLevel_mem _ _
  have hkeys : (calculateEvenScale q cl).map Prod.fst = SCALE_LEVELS := by
    rw [calculateEvenScale_eq_spec]
    exact evenScaleSpec_keys _ _
  have hk_trans : ∀ l ∈ SCALE_LEVELS,
      ("--" ++ cfg.varPrefix ++ "-" ++ toString l ++ "-transparent") ≠
        ("--" ++ cfg.varPrefix ++ "-" ++ toString cl) := by
    intro l hl
    simp only [String.append_assoc]
    exact key_ne2 _ (fun hx => (suffix_facts2 cl hcl l hl).1 hx.symm)
  have hk_text : ("--" ++ cfg.varPrefix ++ "-text-color") ≠
      ("--" ++ cfg.varPrefix ++ "-" ++ toString cl) := by
    simp only [String.append_assoc]
    exact key_ne2 _ (fun hx => (suffix_facts1 cl hcl).2.2.2.2.2.1 hx.symm)
  have hk_v1 : ("--" ++ cfg.varPrefix ++ "-color") ≠
      ("--" ++ cfg.varPrefix ++ "-" ++ toString cl) := by
    simp only [String.append_assoc]
    exact key_ne2 _ (fun hx => (suffix_facts1 cl hcl).1 hx.symm)
  have hk_v2 : ("--" ++ cfg.varPrefix ++ "-" ++ "lighter") ≠
      ("--" ++ cfg.varPrefix ++ "-" ++ toString cl) := by
    simp only [String.append_assoc]
    exact key_ne2 _ (fun hx => (suffix_facts1 cl hcl).2.1 hx.symm)
  have hk_v3 : ("--" ++ cfg.varPrefix ++ "-" ++ "light") ≠
      ("--" ++ cfg.varPrefix ++ "-" ++ toString cl) := by
    simp only [String.append_assoc]
    exact key_ne2 _ (fun hx => (suffix_facts1 cl hcl).2.2.1 hx.symm)
  have hk_v4 : ("--" ++ cfg.varPrefix ++ "-" ++ "dark") ≠
      ("--" ++ cfg.varPrefix ++ "-" ++ toString cl) := by
    simp only [String.append_assoc]
    exact key_ne2 _ (fun hx => (suffix_facts1 cl hcl).2.2.2.1 hx.symm)
  have hk_v5 : ("--" ++ cfg.varPrefix ++ "-" ++ "darker") ≠
      ("--" ++ cfg.varPrefix ++ "-" ++ toString cl) := by
    simp only [String.append_assoc]
    exact key_ne2 _ (fun hx => (suffix_facts1 cl hcl).2.2.2.2.1 hx.symm)
  have hanchor := genOriginalPalette_anchor powF cosF
    ⟨cfg.id, cfg.varPrefix, rgbToHex (hexToRGB cfg.color),
     cfg.hueShiftMode.getD HueShiftMode.natural,
     cfg.lightnessMethod.getD LightnessMethod.hybrid,
     cfg.includeTransparent.getD false,
     (match cfg.bgColorLight with
      | some s => if s = "" then "#ffffff" else s
      | none => "#ffffff"),
     (match cfg.bgColorDark with
      | some s => if s = "" then "#000000" else s
      | none => "#000000"),
     (match cfg.transparentOriginLevel with
      | some l => if l = 0 then 500 else l
      | none => 500)⟩
    (rgbToHSL (hexToRGB cfg.color)) cl (calculateEvenScale q cl)
    (hkeys ▸ hcl) (fun l hl => hkeys ▸ hl) (by rw [hkeys]; exact nodup_levels) hcl
  by_cases hT : cfg.includeTransparent.getD false = true
  · rw [if_pos hT, setTransparentPalette_get_ne _ _ _ hk_trans,
      setTextColor_get_ne _ _ _ _ _ hk_text,
      setVariationColors_get_ne _ _ _ _ hk_v1 hk_v2 hk_v3 hk_v4 hk_v5]
    exact hanchor
  · rw [if_neg hT, setTextColor_get_ne _ _ _ _ _ hk_text,
      setVariationColors_get_ne _ _ _ _ hk_v1 hk_v2 hk_v3 hk_v4 hk_v5]
    exact hanchor

/-- The `--prefix-text-color` token is always present, and its value is a
CSS-variable reference to one of the palette's own level tokens. -/
lemma textColor_token (powF : ℚ → ℚ → ℚ) (cosF : ℚ → ℚ) (cfg : ColorConfig) :
    ∃ lvl : ℤ, paletteGet (generateColorPalette powF cosF cfg)
      ("--" ++ cfg.varPrefix ++ "-text-color") =
      some ("var(--" ++ cfg.varPrefix ++ "-" ++ toString lvl ++ ")") := by
  unfold generateColorPalette
  dsimp only
  have hk_trans : ∀ l ∈ SCALE_LEVELS,
      ("--" ++ cfg.varPrefix ++ "-" ++ toString l ++ "-transparent") ≠
        ("--" ++ cfg.varPrefix ++ "-text-color") := by
    intro l hl
    simp only [String.append_assoc]
    exact key_ne2 _ (fun hx => (suffix_facts3 l hl).1 hx.symm)
  by_cases hT : cfg.includeTransparent.getD false = true
  · rw [if_pos hT, setTransparentPalette_get_ne _ _ _ hk_trans]
    exact setTextColor_get_self powF _ _ _
  · rw [if_neg hT]
    exact setTextColor_get_self powF _ _ _

/-- C8: the text-color token is always present (there is no enabling flag in
the config) and is always a symbolic `var(--...)` reference, and the
`-on-light`/`-on-dark` variants named by the spec are never emitted. -/
theorem C8_text_color_tokens (powF : ℚ → ℚ → ℚ) (cosF : ℚ → ℚ) (cfg : ColorConfig) :
    (∃ lvl : ℤ, paletteGet (generateColorPalette powF cosF cfg)
      ("--" ++ cfg.varPrefix ++ "-text-color") =
      some ("var(--" ++ cfg.varPrefix ++ "-" ++ toString lvl ++ ")")) ∧
    paletteGet (generateColorPalette powF cosF cfg)
      ("--" ++ cfg.varPrefix ++ "-text-color-on-light") = none ∧
    paletteGet (generateColorPalette powF cosF cfg)
      ("--" ++ cfg.varPrefix ++ "-text-color-on-dark") = none := by
  refine ⟨textColor_token powF cosF cfg, ?_, ?_⟩
  · unfold generateColorPalette
    dsimp only
    have hk_trans : ∀ l ∈ SCALE_LEVELS,
        ("--" ++ cfg.varPrefix ++ "-" ++ toString l ++ "-transparent") ≠
          ("--" ++ cfg.varPrefix ++ "-text-color-on-light") := by
      intro l hl
      simp only [String.append_assoc]
      exact key_ne2 _ (fun hx => (suffix_facts3 l hl).2.1 hx.symm)
    have hk_text : ("--" ++ cfg.varPrefix ++ "-text-color") ≠
        ("--" ++ cfg.varPrefix ++ "-text-color-on-light") := by
      simp only [String.append_assoc]
      exact key_ne2 _ (fun hx => suffix_facts4.2.2.2.2.2.1 hx.symm)
    have hk_v1 : ("--" ++ cfg.varPrefix ++ "-color") ≠
        ("--" ++ cfg.varPrefix ++ "-text-color-on-light") := by
      simp only [String.append_assoc]
      exact key_ne2 _ (fun hx => suffix_facts4.1 hx.symm)
    have hk_v2 : ("--" ++ cfg.varPrefix ++ "-" ++ "lighter") ≠
        ("--" ++ cfg.varPrefix ++ "-text-color-on-light") := by
      simp only [String.append_assoc]
      exact key_ne2 _ (fun hx => suffix_facts4.2.1 hx.symm)
    have hk_v3 : ("--" ++ cfg.varPrefix ++ "-" ++ "light") ≠
        ("--" ++ cfg.varPrefix ++ "-text-color-on-light") := by
      simp only [String.append_assoc]
      exact key_ne2 _ (fun hx => suffix_facts4.2.2.1 hx.symm)
    have hk_v4 : ("--" ++ cfg.varPrefix ++ "-" ++ "dark") ≠
        ("--" ++ cfg.varPrefix ++ "-text-color-on-light") := by
      simp only [String.append_assoc]
      exact key_ne2 _ (fun hx => suffix_facts4.2.2.2.1 hx.symm)
    have hk_v5 : ("--" ++ cfg.varPrefix ++ "-" ++ "darker") ≠
        ("--" ++ cfg.varPrefix ++ "-text-color-on-light") := by
      simp only [String.append_assoc]
      exact key_ne2 _ (fun hx => suffix_facts4.2.2.2.2.1 hx.symm)
    have hkeys : (calculateEvenScale
        (getLightness powF (rgbToHex (hexToRGB cfg.color))
          (cfg.lightnessMethod.getD LightnessMethod.hybrid))
        (findClosestLevel
          (getLightness powF (rgbToHex (hexToRGB cfg.color))
            (cfg.lightnessMethod.getD LightnessMethod.hybrid))
          (cfg.lightnessMethod.getD LightnessMethod.hybrid))).map Prod.fst =
        SCALE_LEVELS := by
      rw [calculateEvenScale_eq_spec]
      exact evenScaleSpec_keys _ _
    have hgen := genOriginalPalette_preserve powF cosF
      ⟨cfg.id, cfg.varPrefix, rgbToHex (hexToRGB cfg.color),
       cfg.hueShiftMode.getD HueShiftMode.natural,
       cfg.lightnessMethod.getD LightnessMethod.hybrid,
       cfg.includeTransparent.getD false,
       (match cfg.bgColorLight with
        | some s => if s = "" then "#ffffff" else s
        | none => "#ffffff"),
       (match cfg.bgColorDark with
        | some s => if s = "" then "#000000" else s
        | none => "#000000"),
       (match cfg.transparentOriginLevel with
        | some l => if l = 0 then 500 else l
        | none => 500)⟩
      (rgbToHSL (hexToRGB cfg.color))
      (findClosestLevel
        (getLightness powF (rgbToHex (hexToRGB cfg.color))
          (cfg.lightnessMethod.getD LightnessMethod.hybrid))
        (cfg.lightnessMethod.getD LightnessMethod.hybrid))
      (calculateEvenScale
        (getLightness powF (rgbToHex (hexToRGB cfg.color))
          (cfg.lightnessMethod.getD LightnessMethod.hybrid))
        (findClosestLevel
          (getLightness powF (rgbToHex (hexToRGB cfg.color))
            (cfg.lightnessMethod.getD LightnessMethod.hybrid))
          (cfg.lightnessMethod.getD LightnessMethod.hybrid)))
      (fun l hl => hkeys ▸ hl)
      ("--" ++ cfg.varPrefix ++ "-text-color-on-light")
      (fun l hl => by
        simp only [String.append_assoc]
        exact key_ne2 _ (fun hx => (suffix_facts1 l hl).2.2.2.2.2.2.1 hx))
    by_cases hT : cfg.includeTransparent.getD false = true
    · rw [if_pos hT, setTransparentPalette_get_ne _ _ _ hk_trans,
        setTextColor_get_ne _ _ _ _ _ hk_text,
        setVariationColors_get_ne _ _ _ _ hk_v1 hk_v2 hk_v3 hk_v4 hk_v5]
      exact hgen
    · rw [if_neg hT, setTextColor_get_ne _ _ _ _ _ hk_text,
        setVariationColors_get_ne _ _ _ _ hk_v1 hk_v2 hk_v3 hk_v4 hk_v5]
      exact hgen
  · unfold generateColorPalette
    dsimp only
    have hk_trans : ∀ l ∈ SCALE_LEVELS,
        ("--" ++ cfg.varPrefix ++ "-" ++ toString l ++ "-transparent") ≠
          ("--" ++ cfg.varPrefix ++ "-text-color-on-dark") := by
      intro l hl
      simp only [String.append_assoc]
      exact key_ne2 _ (fun hx => (suffix_facts3 l hl).2.2 hx.symm)
    have hk_text : ("--" ++ cfg.varPrefix ++ "-text-color") ≠
        ("--" ++ cfg.varPrefix ++ "-text-color-on-dark") := by
      simp only [String.append_assoc]
      exact key_ne2 _ (fun hx => suffix_facts4.2.2.2.2.2.2.2.2.2.2.2 hx.symm)
    have hk_v1 : ("--" ++ cfg.varPrefix ++ "-color") ≠
        ("--" ++ cfg.varPrefix ++ "-text-color-on-dark") := by
      simp only [String.append_assoc]
      exact key_ne2 _ (fun hx => suffix_facts4.2.2.2.2.2.2.1 hx.symm)
    have hk_v2 : ("--" ++ cfg.varPrefix ++ "-" ++ "lighter") ≠
        ("--" ++ cfg.varPrefix ++ "-text-color-on-dark") := by
      simp only [String.append_assoc]
      exact key_ne2 _ (fun hx => suffix_facts4.2.2.2.2.2.2.2.1 hx.symm)
    have hk_v3 : ("--" ++ cfg.varPrefix ++ "-" ++ "light") ≠
        ("--" ++ cfg.varPrefix ++ "-text-color-on-dark") := by
      simp only [String.append_assoc]
      exact key_ne2 _ (fun hx => suffix_facts4.2.2.2.2.2.2.2.2.1 hx.symm)
    have hk_v4 : ("--" ++ cfg.varPrefix ++ "-" ++ "dark") ≠
        ("--" ++ cfg.varPrefix ++ "-text-color-on-dark") := by
      simp only [String.append_assoc]
      exact key_ne2 _ (fun hx => suffix_facts4.2.2.2.2.2.2.2.2.2.1 hx.symm)
    have hk_v5 : ("--" ++ cfg.varPrefix ++ "-" ++ "darker") ≠
        ("--" ++ cfg.varPrefix ++ "-text-color-on-dark") := by
      simp only [String.append_assoc]
      exact key_ne2 _ (fun hx => suffix_facts4.2.2.2.2.2.2.2.2.2.2.1 hx.symm)
    have hkeys : (calculateEvenScale
        (getLightness powF (rgbToHex (hexToRGB cfg.color))
          (cfg.lightnessMethod.getD LightnessMethod.hybrid))
        (findClosestLevel
          (getLightness powF (rgbToHex (hexToRGB cfg.color))
            (cfg.lightnessMethod.getD LightnessMethod.hybrid))
          (cfg.lightnessMethod.getD LightnessMethod.hybrid))).map Prod.fst =
        SCALE_LEVELS := by
      rw [calculateEvenScale_eq_spec]
      exact evenScaleSpec_keys _ _
    have hgen := genOriginalPalette_preserve powF cosF
      ⟨cfg.id, cfg.varPrefix, rgbToHex (hexToRGB cfg.color),
       cfg.hueShiftMode.getD HueShiftMode.natural,
       cfg.lightnessMethod.getD LightnessMethod.hybrid,
       cfg.includeTransparent.getD false,
       (match cfg.bgColorLight with
        | some s => if s = "" then "#ffffff" else s
        | none => "#ffffff"),
       (match cfg.bgColorDark with
        | some s => if s = "" then "#000000" else s
        | none => "#000000"),
       (match cfg.transparentOriginLevel with
        | some l => if l = 0 then 500 else l
        | none => 500)⟩
      (rgbToHSL (hexToRGB cfg.color))
      (findClosestLevel
        (getLightness powF (rgbToHex (hexToRGB cfg.color))
          (cfg.lightnessMethod.getD LightnessMethod.hybrid))
        (cfg.lightnessMethod.getD LightnessMethod.hybrid))
      (calculateEvenScale
        (getLightness powF (rgbToHex (hexToRGB cfg.color))
          (cfg.lightnessMethod.getD LightnessMethod.hybrid))
        (findClosestLevel
          (getLightness powF (rgbToHex (hexToRGB cfg.color))
            (cfg.lightnessMethod.getD LightnessMethod.hybrid))
          (cfg.lightnessMethod.getD LightnessMethod.hybrid)))
      (fun l hl => hkeys ▸ hl)
      ("--" ++ cfg.varPrefix ++ "-text-color-on-dark")
      (fun l hl => by
        simp only [String.append_assoc]
        exact key_ne2 _ (fun hx => (suffix_facts1 l hl).2.2.2.2.2.2.2 hx))
    by_cases hT : cfg.includeTransparent.getD false = true
    · rw [if_pos hT, setTransparentPalette_get_ne _ _ _ hk_trans,
        setTextColor_get_ne _ _ _ _ _ hk_text,
        setVariationColors_get_ne _ _ _ _ hk_v1 hk_v2 hk_v3 hk_v4 hk_v5]
      exact hgen
    · rw [if_neg hT, setTextColor_get_ne _ _ _ _ _ hk_text,
        setVariationColors_get_ne _ _ _ _ hk_v1 hk_v2 hk_v3 hk_v4 hk_v5]
      exact hgen

/-- C8 counterexample: with a minimal config that opts into nothing, the
text-color token is still emitted — there is no "enabled" switch gating it. -/
theorem C8_text_color_counterexample :
    paletteGet (generateColorPalette (fun _ _ => 0) (fun _ => 0)
        ⟨"p", "p", "#808080", none, none, none, none, none, none⟩)
      "--p-text-color" ≠ none := by
  obtain ⟨lvl, h⟩ := textColor_token (fun _ _ => 0) (fun _ => 0)
    ⟨"p", "p", "#808080", none, none, none, none, none, none⟩
  dsimp only at h
  rw [show ("--" ++ "p" ++ "-text-color" : String) = "--p-text-color" from rfl] at h
  rw [h]
  simp

/-- When the origin level's solid entry holds an `rgbToHex` string and the
light background is nonempty, the transparent pass attaches at that level the
compositing inversion of that very string at the origin alpha. -/
lemma setTransparentPalette_get_origin (cfg : RequiredColorConfig)
    (hmem : cfg.transparentOriginLevel ∈ SCALE_LEVELS) (rgb0 : RGB) (p : Palette)
    (hget : paletteGet p
        ("--" ++ cfg.varPrefix ++ "-" ++ toString cfg.transparentOriginLevel) =
      some (rgbToHex rgb0))
    (hbg : cfg.bgColorLight ≠ "") :
    paletteGet (setTransparentPalette cfg p)
        ("--" ++ cfg.varPrefix ++ "-" ++ toString cfg.transparentOriginLevel ++
          "-transparent") =
      some (calculateTransparentColor (rgbToHex rgb0) cfg.bgColorLight
        (getAlphaForLevel cfg.transparentOriginLevel cfg.transparentOriginLevel)) := by
  have hne0 : ¬ cfg.transparentOriginLevel = 0 := by
    intro hc
    rw [hc] at hmem
    exact absurd hmem (by decide)
  obtain ⟨htrim, hne, hnund⟩ := rgbToHex_clean rgb0
  unfold setTransparentPalette
  rw [if_neg hne0]
  refine transparent_fold_get _ cfg.transparentOriginLevel _ _ (rgbToHex rgb0) _
    ?_ ?_ SCALE_LEVELS p hmem nodup_levels (fun x hx => hx) hget
  · intro p' l hl hlne
    dsimp only
    split
    · exact ⟨rfl, rfl⟩
    · split_ifs <;>
        first
          | exact ⟨rfl, rfl⟩
          | exact ⟨paletteGet_set_ne _ _ _ _ (by
                simp only [String.append_assoc]
                exact key_ne2 _ (fun hx =>
                  hlne ((suffix_facts2 l hl cfg.transparentOriginLevel hmem).2 hx))),
              paletteGet_set_ne _ _ _ _ (by
                simp only [String.append_assoc]
                exact key_ne2 _ (fun hx =>
                  (suffix_facts2 cfg.transparentOriginLevel hmem l hl).1 hx.symm))⟩
  · intro p' hs
    dsimp only
    rw [hs]
    dsimp only
    rw [if_neg hne, htrim]
    rw [if_neg (by
      push_neg
      exact ⟨hne, hnund⟩)]
    rw [if_pos le_rfl, if_neg hbg]
    exact paletteGet_set_eq _ _ _

/-- C10: with transparency enabled and a valid origin level, the transparent
token emitted at the origin level is exactly `rgba(r, g, b, 1.000)` where
`(r, g, b)` are the integer channels of that level's solid color — the origin
transparent variant reproduces its solid color unchanged. -/
theorem C10_origin_transparent_identity (powF : ℚ → ℚ → ℚ) (cosF : ℚ → ℚ)
    (cfg : ColorConfig) (origin : ℤ)
    (hT : cfg.includeTransparent = some true)
    (hO : cfg.transparentOriginLevel = some origin)
    (hmem : origin ∈ SCALE_LEVELS) (h0 : origin ≠ 0) :
    ∃ r g b : ℤ, (0 ≤ r ∧ r ≤ 255) ∧ (0 ≤ g ∧ g ≤ 255) ∧ (0 ≤ b ∧ b ≤ 255) ∧
      paletteGet (generateColorPalette powF cosF cfg)
          ("--" ++ cfg.varPrefix ++ "-" ++ toString origin) =
        some (rgbToHex ⟨(r : ℚ), (g : ℚ), (b : ℚ)⟩) ∧
      paletteGet (generateColorPalette powF cosF cfg)
          ("--" ++ cfg.varPrefix ++ "-" ++ toString origin ++ "-transparent") =
        some ("rgba(" ++ toString r ++ ", " ++ toString g ++ ", " ++ toString b ++
          ", 1.000)") := by
  unfold generateColorPalette
  dsimp only
  rw [hT, hO]
  simp only [Option.getD_some]
  rw [if_pos trivial]
  rw [if_neg h0]
  set q := getLightness powF (rgbToHex (hexToRGB cfg.color))
    (cfg.lightnessMethod.getD LightnessMethod.hybrid) with hq
  set cl := findClosestLevel q (cfg.lightnessMethod.getD LightnessMethod.hybrid) with hcl2
  have hkeys : (calculateEvenScale q cl).map Prod.fst = SCALE_LEVELS := by
    rw [calculateEvenScale_eq_spec]
    exact evenScaleSpec_keys _ _
  obtain ⟨v, hv, hvP⟩ := genOriginalPalette_get_mem powF cosF
    ⟨cfg.id, cfg.varPrefix, rgbToHex (hexToRGB cfg.color),
     cfg.hueShiftMode.getD HueShiftMode.natural,
     cfg.lightnessMethod.getD LightnessMethod.hybrid, true,
     (match cfg.bgColorLight with
      | some s => if s = "" then "#ffffff" else s
      | none => "#ffffff"),
     (match cfg.bgColorDark with
      | some s => if s = "" then "#000000" else s
      | none => "#000000"), origin⟩
    (rgbToHSL (hexToRGB cfg.color)) cl (calculateEvenScale q cl) origin
    (hkeys ▸ hmem) (fun l hl => hkeys ▸ hl) (by rw [hkeys]; exact nodup_levels)
  obtain ⟨rgb0, hv0⟩ : ∃ rgb0 : RGB, v = rgbToHex rgb0 := by
    rcases hvP with h | ⟨hh, ss, ll, h⟩
    · exact ⟨hexToRGB cfg.color, h⟩
    · exact ⟨_, h⟩
  obtain ⟨r, g, b, hr, hg, hb, heqhex, hparse⟩ := rgbToHex_form rgb0
  have hk_text : ("--" ++ cfg.varPrefix ++ "-text-color") ≠
      ("--" ++ cfg.varPrefix ++ "-" ++ toString origin) := by
    simp only [String.append_assoc]
    exact key_ne2 _ (fun hx => (suffix_facts1 origin hmem).2.2.2.2.2.1 hx.symm)
  have hk_v1 : ("--" ++ cfg.varPrefix ++ "-color") ≠
      ("--" ++ cfg.varPrefix ++ "-" ++ toString origin) := by
    simp only [String.append_assoc]
    exact key_ne2 _ (fun hx => (suffix_facts1 origin hmem).1 hx.symm)
  have hk_v2 : ("--" ++ cfg.varPrefix ++ "-" ++ "lighter") ≠
      ("--" ++ cfg.varPrefix ++ "-" ++ toString origin) := by
    simp only [String.append_assoc]
    exact key_ne2 _ (fun hx => (suffix_facts1 origin hmem).2.1 hx.symm)
  have hk_v3 : ("--" ++ cfg.varPrefix ++ "-" ++ "light") ≠
      ("--" ++ cfg.varPrefix ++ "-" ++ toString origin) := by
    simp only [String.append_assoc]
    exact key_ne2 _ (fun hx => (suffix_facts1 origin hmem).2.2.1 hx.symm)
  have hk_v4 : ("--" ++ cfg.varPrefix ++ "-" ++ "dark") ≠
      ("--" ++ cfg.varPrefix ++ "-" ++ toString origin) := by
    simp only [String.append_assoc]
    exact key_ne2 _ (fun hx => (suffix_facts1 origin hmem).2.2.2.1 hx.symm)
  have hk_v5 : ("--" ++ cfg.varPrefix ++ "-" ++ "darker") ≠
      ("--" ++ cfg.varPrefix ++ "-" ++ toString origin) := by
    simp only [String.append_assoc]
    exact key_ne2 _ (fun hx => (suffix_facts1 origin hmem).2.2.2.2.1 hx.symm)
  have hk_transO : ∀ l ∈ SCALE_LEVELS,
      ("--" ++ cfg.varPrefix ++ "-" ++ toString l ++ "-transparent") ≠
        ("--" ++ cfg.varPrefix ++ "-" ++ toString origin) := by
    intro l hl
    simp only [String.append_assoc]
    exact key_ne2 _ (fun hx => (suffix_facts2 origin hmem l hl).1 hx.symm)
  have hsolid2 : paletteGet (setTextColor powF
      ⟨cfg.id, cfg.varPrefix, rgbToHex (hexToRGB cfg.color),
       cfg.hueShiftMode.getD HueShiftMode.natural,
       cfg.lightnessMethod.getD LightnessMethod.hybrid, true,
       (match cfg.bgColorLight with
        | some s => if s = "" then "#ffffff" else s
        | none => "#ffffff"),
       (match cfg.bgColorDark with
        | some s => if s = "" then "#000000" else s
        | none => "#000000"), origin⟩
      (rgbToHex (hexToRGB cfg.color))
      (setVariationColors
        ⟨cfg.id, cfg.varPrefix, rgbToHex (hexToRGB cfg.color),
         cfg.hueShiftMode.getD HueShiftMode.natural,
         cfg.lightnessMethod.getD LightnessMethod.hybrid, true,
         (match cfg.bgColorLight with
          | some s => if s = "" then "#ffffff" else s
          | none => "#ffffff"),
         (match cfg.bgColorDark with
          | some s => if s = "" then "#000000" else s
          | none => "#000000"), origin⟩ cl
        (generateOriginalPalette powF cosF
          ⟨cfg.id, cfg.varPrefix, rgbToHex (hexToRGB cfg.color),
           cfg.hueShiftMode.getD HueShiftMode.natural,
           cfg.lightnessMethod.getD LightnessMethod.hybrid, true,
           (match cfg.bgColorLight with
            | some s => if s = "" then "#ffffff" else s
            | none => "#ffffff"),
           (match cfg.bgColorDark with
            | some s => if s = "" then "#000000" else s
            | none => "#000000"), origin⟩
          (rgbToHSL (hexToRGB cfg.color)) cl (calculateEvenScale q cl))))
      ("--" ++ cfg.varPrefix ++ "-" ++ toString origin) = some (rgbToHex rgb0) := by
    rw [setTextColor_get_ne _ _ _ _ _ hk_text,
      setVariationColors_get_ne _ _ _ _ hk_v1 hk_v2 hk_v3 hk_v4 hk_v5, ← hv0]
    exact hv
  have htr := setTransparentPalette_get_origin
    ⟨cfg.id, cfg.varPrefix, rgbToHex (hexToRGB cfg.color),
     cfg.hueShiftMode.getD HueShiftMode.natural,
     cfg.lightnessMethod.getD LightnessMethod.hybrid, true,
     (match cfg.bgColorLight with
      | some s => if s = "" then "#ffffff" else s
      | none => "#ffffff"),
     (match cfg.bgColorDark with
      | some s => if s = "" then "#000000" else s
      | none => "#000000"), origin⟩
    hmem rgb0 _ hsolid2 (bgOption_ne_empty cfg.bgColorLight "#ffffff" (by decide))
  rw [getAlphaForLevel_self, heqhex,
    calcTransparent_alpha_one r g b hr.1 hr.2 hg.1 hg.2 hb.1 hb.2] at htr
  refine ⟨r, g, b, hr, hg, hb, ?_, htr⟩
  rw [setTransparentPalette_get_ne _ _ _ hk_transO, ← heqhex, ← hv0]
  exact hsolid2.trans (by rw [hv0])

/-- Witness for the C10 theorem at a concrete configuration. -/
theorem C10_origin_transparent_identity_witness :
    (⟨"p", "p", "#808080", none, none, some true, none, none, some 500⟩ :
        ColorConfig).includeTransparent = some true ∧
    (⟨"p", "p", "#808080", none, none, some true, none, none, some 500⟩ :
        ColorConfig).transparentOriginLevel = some 500 ∧
    (500 : ℤ) ∈ SCALE_LEVELS ∧ (500 : ℤ) ≠ 0 ∧
    (∃ r g b : ℤ, (0 ≤ r ∧ r ≤ 255) ∧ (0 ≤ g ∧ g ≤ 255) ∧ (0 ≤ b ∧ b ≤ 255) ∧
      paletteGet (generateColorPalette (fun _ _ => 0) (fun _ => 0)
          ⟨"p", "p", "#808080", none, none, some true, none, none, some 500⟩)
          ("--" ++ (⟨"p", "p", "#808080", none, none, some true, none, none,
            some 500⟩ : ColorConfig).varPrefix ++ "-" ++ toString (500 : ℤ)) =
        some (rgbToHex ⟨(r : ℚ), (g : ℚ), (b : ℚ)⟩) ∧
      paletteGet (generateColorPalette (fun _ _ => 0) (fun _ => 0)
          ⟨"p", "p", "#808080", none, none, some true, none, none, some 500⟩)
          ("--" ++ (⟨"p", "p", "#808080", none, none, some true, none, none,
            some 500⟩ : ColorConfig).varPrefix ++ "-" ++ toString (500 : ℤ) ++
            "-transparent") =
        some ("rgba(" ++ toString r ++ ", " ++ toString g ++ ", " ++ toString b ++
          ", 1.000)")) :=
  ⟨rfl, rfl, by decide, by decide,
    C10_origin_transparent_identity (fun _ _ => 0) (fun _ => 0)
      ⟨"p", "p", "#808080", none, none, some true, none, none, some 500⟩ 500
      rfl rfl (by decide) (by decide)⟩

end ColorPalette
